import Mathlib

/-!
Print analyzer firmware: contrast catalog, rollover arithmetic, tone-graph accessors,
number formatting, menu events and value editors.

A shallow embedding of `contrast.c`, of the tone-graph accessor macros and the
adjustment increments of `exposure_state.h`, and of the number formatting, the menu
event decoding and the value editors of `display_internal.c` together with the rollover
arithmetic they call, followed by the properties proved about them.

Conventions of the embedding:

* a C `int`/enum argument is an `Int`, so that values outside an enumeration
  (negative ones included) are inputs like any other;
* a `const char *` result is an `Option String`, `none` being `NULL`;
* a static `const char *[]` table is a `List String`; reading it outside its
  bounds is a fault, not a value;
* unsigned machine integers are `Nat`, reduced modulo `2 ^ w` where a conversion or an
  assignment of the C code can truncate.
-/

namespace PrintAnalyzer

/-! Section: C-level plumbing -/

/-- Ways in which evaluating a C expression can go wrong. -/
inductive Fault
  | out_of_bounds
  | division_by_zero
  deriving DecidableEq, Repr

/-- What a call of a `const char *` function yields: a fault, or the returned pointer
(`none` is `NULL`). -/
inductive Outcome
  | fault (f : Fault)
  | ret (p : Option String)
  deriving DecidableEq, Repr

/-- The `return` statement a lookup function reaches: `return NULL;`, `return "lit";`
or `return TABLE[index];`. -/
inductive Ret
  | null
  | literal (s : String)
  | element (table : List String) (index : Int)
  deriving DecidableEq, Repr

/-- Evaluate the reached `return` statement. A table element is read only by
`Ret.element`, and reading outside the table is a fault. -/
def Ret.eval : Ret → Outcome
  | .null => .ret none
  | .literal s => .ret (some s)
  | .element table index =>
    if 0 ≤ index then
      match table[index.toNat]? with
      | some s => .ret (some s)
      | none => .fault .out_of_bounds
    else .fault .out_of_bounds

/-! Section: contrast.h enumerations -/

/-- Modelled from the spec: `contrast.h` is not among the sources; the spec gives
`ContrastGrade` as the ordinals `[0, 12)` in the order 00, 0, 1/2, ..., 5, so the first
enumerator of `contrast_grade_t` is 0. -/
def CONTRAST_GRADE_00 : Int := 0

/-- Modelled from the spec: `contrast.h` is not among the sources; the spec gives
`ContrastGrade` as the ordinals `[0, 12)`, so the end marker of `contrast_grade_t` is 12. -/
def CONTRAST_GRADE_MAX : Int := 12

/-- Modelled from the spec: `contrast.h` is not among the sources; the spec lists
`ContrastFilter` as Regular, Durst170M, Durst130M, Kodak, FocomatV35, Meopta, in this
order. Regular is ordinal 0. -/
def CONTRAST_FILTER_REGULAR : Int := 0

/-- Modelled from the spec: second `ContrastFilter` variant (see `CONTRAST_FILTER_REGULAR`). -/
def CONTRAST_FILTER_DURST_170M : Int := 1

/-- Modelled from the spec: third `ContrastFilter` variant (see `CONTRAST_FILTER_REGULAR`). -/
def CONTRAST_FILTER_DURST_130M : Int := 2

/-- Modelled from the spec: fourth `ContrastFilter` variant (see `CONTRAST_FILTER_REGULAR`). -/
def CONTRAST_FILTER_KODAK : Int := 3

/-- Modelled from the spec: fifth `ContrastFilter` variant (see `CONTRAST_FILTER_REGULAR`). -/
def CONTRAST_FILTER_LEITZ_FOCOMAT_V35 : Int := 4

/-- Modelled from the spec: sixth `ContrastFilter` variant (see `CONTRAST_FILTER_REGULAR`). -/
def CONTRAST_FILTER_MEOPTA : Int := 5

/-- Modelled from the spec: end marker of `contrast_filter_t`, one past the six variants
(see `CONTRAST_FILTER_REGULAR`). -/
def CONTRAST_FILTER_MAX : Int := 6

/-! Section: contrast.c tables -/

/-- Table `CONTRAST_GRADE_STR` of contrast.c. -/
def CONTRAST_GRADE_STR : List String :=
  ["00", "0", "1/2", "1", "1-1/2", "2", "2-1/2", "3", "3-1/2",
   "4", "4-1/2", "5"]

/-- Table `CONTRAST_FILTER_NAME_STR` of contrast.c. -/
def CONTRAST_FILTER_NAME_STR : List String :=
  ["Regular",
   "Durst (170M)", "Durst (130M)", "Kodak",
   "Focomat V35", "Meopta"]

/-- Table `GRADE_FILTER_STR_DURST_170M` of contrast.c. -/
def GRADE_FILTER_STR_DURST_170M : List String :=
  ["115Y+0M", "100Y+5M", "88Y+7M",   "75Y+10M",
   "65Y+15M", "52Y+20M", "42Y+28M",  "34Y+45M",
   "27Y+60M", "17Y+76M", "10Y+105M", "0Y+170M"]

/-- Table `GRADE_FILTER_STR_DURST_130M` of contrast.c. -/
def GRADE_FILTER_STR_DURST_130M : List String :=
  ["120Y+0M", "88Y+6M",  "78Y+8M",  "64Y+12M",
   "53Y+17M", "45Y+24M", "35Y+31M", "24Y+42M",
   "17Y+53M", "10Y+69M", "6Y+89M",  "0Y+130M"]

/-- Table `GRADE_FILTER_STR_KODAK` of contrast.c. -/
def GRADE_FILTER_STR_KODAK : List String :=
  ["162Y+0M", "90Y+0M",  "78Y+5M",  "68Y+10M",
   "49Y+23M", "41Y+32M", "32Y+42M", "23Y+56M",
   "15Y+75M", "6Y+102M", "0Y+150M", "0Y+200M"]

/-- Table `GRADE_FILTER_STR_LEITZ_FOCOMAT_V35` of contrast.c. -/
def GRADE_FILTER_STR_LEITZ_FOCOMAT_V35 : List String :=
  ["135Y+6M", "105Y+12M", "77Y+11M",  "67Y+17M",
   "52Y+28M", "39Y+43M",  "32Y+51M",  "23Y+62M",
   "14Y+79M", "10Y+95M",  "15Y+154M", "0Y+200M"]

/-- Table `GRADE_FILTER_STR_MEOPTA` of contrast.c (no half-grade settings published). -/
def GRADE_FILTER_STR_MEOPTA : List String :=
  ["105Y+0M",
   "85Y+10M", "--", "60Y+20M", "--",
   "40Y+45M", "--", "20Y+60M", "--",
   "10Y+75M", "--", "0Y+200M"]

/-! Section: contrast.c functions -/

/-- The `return` statement `contrast_grade_str` reaches. -/
def contrast_grade_str_stmt (contrast_grade : Int) : Ret :=
  if contrast_grade ≥ CONTRAST_GRADE_00 ∧ contrast_grade < CONTRAST_GRADE_MAX then
    .element CONTRAST_GRADE_STR contrast_grade
  else
    .literal ""

/-- Function `contrast_grade_str` of contrast.c. -/
def contrast_grade_str (contrast_grade : Int) : Outcome :=
  (contrast_grade_str_stmt contrast_grade).eval

/-- The `return` statement `contrast_filter_name_str` reaches. -/
def contrast_filter_name_str_stmt (filter : Int) : Ret :=
  if filter ≥ CONTRAST_FILTER_REGULAR ∧ filter < CONTRAST_FILTER_MAX then
    .element CONTRAST_FILTER_NAME_STR filter
  else
    .literal ""

/-- Function `contrast_filter_name_str` of contrast.c. -/
def contrast_filter_name_str (filter : Int) : Outcome :=
  (contrast_filter_name_str_stmt filter).eval

/-- The `return` statement `contrast_filter_grade_str` reaches: the range check on the
grade, then the `switch` on the filter. -/
def contrast_filter_grade_str_stmt (filter contrast_grade : Int) : Ret :=
  if contrast_grade ≥ CONTRAST_GRADE_00 ∧ contrast_grade < CONTRAST_GRADE_MAX then
    if filter = CONTRAST_FILTER_REGULAR then
      .null
    else if filter = CONTRAST_FILTER_DURST_170M then
      .element GRADE_FILTER_STR_DURST_170M contrast_grade
    else if filter = CONTRAST_FILTER_DURST_130M then
      .element GRADE_FILTER_STR_DURST_130M contrast_grade
    else if filter = CONTRAST_FILTER_KODAK then
      .element GRADE_FILTER_STR_KODAK contrast_grade
    else if filter = CONTRAST_FILTER_LEITZ_FOCOMAT_V35 then
      .element GRADE_FILTER_STR_LEITZ_FOCOMAT_V35 contrast_grade
    else if filter = CONTRAST_FILTER_MEOPTA then
      .element GRADE_FILTER_STR_MEOPTA contrast_grade
    else
      .null
  else
    .null

/-- Function `contrast_filter_grade_str` of contrast.c. -/
def contrast_filter_grade_str (filter contrast_grade : Int) : Outcome :=
  (contrast_filter_grade_str_stmt filter contrast_grade).eval

/-! Section: Recipe strings -/

/-- A two-component filter recipe `<y>Y+<m>M`: two non-empty runs of decimal digits, the
first followed by `Y+`, the second by `M`, and nothing else. -/
def IsRecipe (s : String) : Prop :=
  ∃ y m : List Char, y ≠ [] ∧ m ≠ [] ∧ (∀ c ∈ y, c.isDigit = true) ∧
    (∀ c ∈ m, c.isDigit = true) ∧ s.data = y ++ 'Y' :: '+' :: (m ++ ['M'])

/-- Executable recogniser for `IsRecipe`. -/
def recipeCheck (s : String) : Bool :=
  let y := s.data.takeWhile Char.isDigit
  match s.data.dropWhile Char.isDigit with
  | 'Y' :: '+' :: rest =>
    let m := rest.takeWhile Char.isDigit
    !y.isEmpty && !m.isEmpty && rest.dropWhile Char.isDigit == ['M']
  | _ => false

/-! Section: Rollover arithmetic (called by the value editors of display_internal.c) -/

/-- Modelled from the spec: `value_adjust_with_rollover_u8` and
`value_adjust_with_rollover_u16` are called by `display_internal.c` but defined in a
file (`util.c`) that is not among the sources. The spec (4.1) gives the contract:
`[low, high]` is a circular range of `high - low + 1` positions, and adding `delta`
(of either sign, of any magnitude) wraps modulo that width: past `high` continues
from `low`, past `low` continues from `high`. -/
def adjust_with_rollover (value : Nat) (delta : Int) (low high : Nat) : Nat :=
  low + (((value : Int) - (low : Int) + delta) % ((high : Int) - (low : Int) + 1)).toNat

/-- Modelled from the spec: the 8-bit variant of `adjust_with_rollover` (defined in the
absent `util.c`); the result is a `uint8_t`. -/
def value_adjust_with_rollover_u8 (value : Nat) (delta : Int) (low high : Nat) : Nat :=
  adjust_with_rollover value delta low high % 2 ^ 8

/-- Modelled from the spec: the 16-bit variant of `adjust_with_rollover` (defined in the
absent `util.c`); the result is a `uint16_t`. -/
def value_adjust_with_rollover_u16 (value : Nat) (delta : Int) (low high : Nat) : Nat :=
  adjust_with_rollover value delta low high % 2 ^ 16

/-! Section: Tone-graph accessors (exposure_state.h) -/

/-- Macro `EXPOSURE_TONE_IS_LOWER_BOUND(x)`: `((x) & 0x00000001UL)`. -/
def EXPOSURE_TONE_IS_LOWER_BOUND (x : Nat) : Nat :=
  x &&& 0x00000001

/-- Macro `EXPOSURE_TONE_IS_UPPER_BOUND(x)`: `((x) & 0x00010000UL)`. -/
def EXPOSURE_TONE_IS_UPPER_BOUND (x : Nat) : Nat :=
  x &&& 0x00010000

/-- Macro `EXPOSURE_TONE_IS_SET(x, i)`: `((x) & (1UL << (i)))`, the shift being done in
a 32-bit `unsigned long`. -/
def EXPOSURE_TONE_IS_SET (x i : Nat) : Nat :=
  x &&& ((1 <<< i) % 2 ^ 32)

/-! Section: Adjustment increments (exposure_state.h) -/

/-- Enumerator `EXPOSURE_ADJ_TWELFTH` of `exposure_adjustment_increment_t`. -/
def EXPOSURE_ADJ_TWELFTH : Nat := 1

/-- Enumerator `EXPOSURE_ADJ_SIXTH` of `exposure_adjustment_increment_t`. -/
def EXPOSURE_ADJ_SIXTH : Nat := 2

/-- Enumerator `EXPOSURE_ADJ_QUARTER` of `exposure_adjustment_increment_t`. -/
def EXPOSURE_ADJ_QUARTER : Nat := 3

/-- Enumerator `EXPOSURE_ADJ_THIRD` of `exposure_adjustment_increment_t`. -/
def EXPOSURE_ADJ_THIRD : Nat := 4

/-- Enumerator `EXPOSURE_ADJ_HALF` of `exposure_adjustment_increment_t`. -/
def EXPOSURE_ADJ_HALF : Nat := 6

/-- Enumerator `EXPOSURE_ADJ_WHOLE` of `exposure_adjustment_increment_t`. -/
def EXPOSURE_ADJ_WHOLE : Nat := 12

/-! Section: Number formatting (display_internal.c) -/

/-- Conversions `%*d` and `%0*d` of the C library, for a non-negative argument `n` and a
non-negative field width: the decimal digits of `n`, padded on the left up to `width`
characters, with spaces, or with zeros under the `0` flag. Digits are never dropped. -/
def printf_d (zero_flag : Bool) (width n : Nat) : List Char :=
  List.replicate (width - (Nat.toDigits 10 n).length) (if zero_flag then '0' else ' ')
    ++ Nat.toDigits 10 n

/-- Library call `snprintf(buf, size, ...)`: of the formatted text, at most `size - 1`
characters are stored in front of the terminating NUL. -/
def snprintf (size : Nat) (text : List Char) : String :=
  String.mk (text.take (size - 1))

/-- Function `display_u16toa` of display_internal.c (`v` = value, `d` = number of digits),
with its `static char buf[6]`. -/
def display_u16toa (v d : Nat) : String :=
  let d := if d > 5 then 5 else d
  snprintf 6 (printf_d false d v)

/-- Function `uint_pow` of display_internal.c: `result` is a `uint8_t`, so every
`result *= base` is reduced modulo 256. -/
def uint_pow (base exp : Nat) : Nat :=
  (fun result => (result * base) % 2 ^ 8)^[exp] 1

/-- Function `display_f1_2toa` of display_internal.c: the four characters of `buf`. -/
def display_f1_2toa (v : Nat) (sep : Char) : String :=
  String.mk [Char.ofNat ('0'.toNat + v % 1000 / 100), sep,
    Char.ofNat ('0'.toNat + v % 100 / 10), Char.ofNat ('0'.toNat + v % 10)]

/-- The "explicitly constrain input values" step of `display_UserInterfaceInputValueF1_2`:
from the initial `*value`, `low` and `high` to the working `(local_value, low, high)`. -/
def display_UserInterfaceInputValueF1_2_constrain (value low high : Nat) : Nat × Nat × Nat :=
  let local_value := value
  let high := if high > 999 then 999 else high
  let low := if low > 0 ∧ low > high then high else low
  let local_value :=
    if local_value < low then low
    else if local_value > high then high
    else local_value
  (local_value, low, high)

/-- Function `display_f16toa` of display_internal.c, with its `static char buf[7]`;
`fpow` is a `uint8_t`, `wval` and `fval` are `uint16_t`. Dividing by `fpow = 0` is
undefined and reported as a fault. -/
def display_f16toa (val wdigits fdigits : Nat) : Outcome :=
  let fpow := uint_pow 10 fdigits % 2 ^ 8
  if fpow = 0 then .fault .division_by_zero
  else
    let wval := (val / fpow) % 2 ^ 16
    let fval := (val % fpow) % 2 ^ 16
    let wdigits' := if wdigits + fdigits > 5 then 3 else wdigits
    let fdigits' := if wdigits + fdigits > 5 then 2 else fdigits
    .ret (some (snprintf 7 (printf_d false wdigits' wval ++ '.' :: printf_d true fdigits' fval)))

/-- The rendering the fixed-point editor is meant to show: `val div 10^fdigits` in decimal,
right-aligned in `wdigits` columns, a point, and `val mod 10^fdigits` zero-padded to
`fdigits` digits. -/
def fixed_point_text (val wdigits fdigits : Nat) : String :=
  String.mk (printf_d false wdigits (val / 10 ^ fdigits)
    ++ '.' :: printf_d true fdigits (val % 10 ^ fdigits))

/-- The guard at the top of `display_UserInterfaceInputValueF16`: the digit combinations
for which it does not `return 0` at once. -/
def display_UserInterfaceInputValueF16_accepts (wdigits fdigits : Nat) : Bool :=
  !(wdigits + fdigits > 5)

/-! Section: Menu events (display_internal.c) -/

/-- Constant `UINT16_MAX` of stdint.h. -/
def UINT16_MAX : Nat := 65535

/-- Conversion to `uint8_t`. -/
def to_uint8 (x : Nat) : Nat := x % 2 ^ 8

/-- Conversion to `uint16_t`. -/
def to_uint16 (x : Nat) : Nat := x % 2 ^ 16

/-- Conversion to `int8_t`: reduction modulo 256 into `[-128, 127]`. -/
def to_int8 (x : Int) : Int := (x + 128) % 256 - 128

/-- The menu messages `display_internal.c` names. The first six are macros of the u8g2
library, the others of the firmware's display headers; none is defined in the sources. -/
inductive MenuAction
  | U8X8_MSG_GPIO_MENU_SELECT
  | U8X8_MSG_GPIO_MENU_NEXT
  | U8X8_MSG_GPIO_MENU_PREV
  | U8X8_MSG_GPIO_MENU_HOME
  | U8X8_MSG_GPIO_MENU_UP
  | U8X8_MSG_GPIO_MENU_DOWN
  | U8X8_MSG_GPIO_MENU_VALUE_INC
  | U8X8_MSG_GPIO_MENU_VALUE_DEC
  | U8X8_MSG_GPIO_MENU_PROBE_BTN
  | U8X8_MSG_GPIO_MENU_STICK_BTN
  | U8X8_MSG_GPIO_MENU_INPUT_ASCII
  deriving DecidableEq, Repr

/-- The enumerators of `keypad_key_t` (keypad.h, not among the sources) that
`display_GetMenuEvent` names. -/
inductive keypad_key_t
  | KEYPAD_DEC_CONTRAST
  | KEYPAD_INC_CONTRAST
  | KEYPAD_INC_EXPOSURE
  | KEYPAD_DEC_EXPOSURE
  | KEYPAD_ENCODER_CW
  | KEYPAD_ENCODER_CCW
  | KEYPAD_METER_PROBE
  | KEYPAD_DENSISTICK
  | KEYPAD_MENU
  | KEYPAD_ADD_ADJUSTMENT
  | KEYPAD_TEST_STRIP
  | KEYPAD_ENCODER
  | KEYPAD_CANCEL
  | KEYPAD_USB_KEYBOARD
  deriving DecidableEq, Repr

open MenuAction keypad_key_t

/-- The fields of `keypad_event_t` that `display_GetMenuEvent` reads: the key code, the
pressed flag and the repeat count. -/
structure keypad_event_t where
  key : Nat
  pressed : Bool
  count : Nat
  deriving DecidableEq, Repr

/-- What `display_internal.c` takes from headers that are not among the sources, as
parameters of the embedding: the numeric values of the menu messages, of the keypad keys,
of the HAL status codes and of the `display_menu_params_t` flags, the menu timeout, and the
three USB keyboard helpers of keypad.h. -/
structure MenuEnv where
  action : MenuAction → Nat
  key : keypad_key_t → Nat
  HAL_OK : Nat
  HAL_TIMEOUT : Nat
  MENU_TIMEOUT_MS : Int
  DISPLAY_MENU_ACCEPT_MENU : Nat
  DISPLAY_MENU_ACCEPT_ADD_ADJUSTMENT : Nat
  DISPLAY_MENU_ACCEPT_TEST_STRIP : Nat
  DISPLAY_MENU_ACCEPT_ENCODER : Nat
  DISPLAY_MENU_ACCEPT_PROBE : Nat
  DISPLAY_MENU_ACCEPT_STICK : Nat
  DISPLAY_MENU_INPUT_ASCII : Nat
  DISPLAY_MENU_INPUT_POLL : Nat
  DISPLAY_MENU_TIMEOUT_DISABLED : Nat
  keypad_usb_get_keypad_equivalent : keypad_event_t → Nat
  keypad_usb_get_keycode : keypad_event_t → Nat
  keypad_usb_get_ascii : keypad_event_t → Nat

/-- What the code relies on about the constants: different messages have different
values, each a byte other than 0 (no action) and 0xFF; different keys have different
byte-sized codes; and `HAL_OK` differs from `HAL_TIMEOUT`. -/
structure MenuEnv.WellFormed (K : MenuEnv) : Prop where
  action_injective : Function.Injective K.action
  action_pos : ∀ a, 0 < K.action a
  action_lt : ∀ a, K.action a < 255
  key_injective : Function.Injective K.key
  key_lt : ∀ k, K.key k < 256
  hal_distinct : K.HAL_OK ≠ K.HAL_TIMEOUT

/-- Constant `MENU_KEY_POLL_MS` of display_internal.c. -/
def MENU_KEY_POLL_MS : Int := 100

/-- The timeout `display_GetMenuEvent` hands to `keypad_wait_for_event`. -/
def display_GetMenuEvent_timeout (K : MenuEnv) (params : Nat) : Int :=
  if params &&& K.DISPLAY_MENU_INPUT_POLL ≠ 0 then MENU_KEY_POLL_MS
  else if params &&& K.DISPLAY_MENU_TIMEOUT_DISABLED ≠ 0 then -1
  else K.MENU_TIMEOUT_MS

/-- The expression `((uint16_t)x << 8) | action`, stored in the `uint16_t result`. -/
def menu_event_encode (x action : Nat) : Nat :=
  to_uint16 ((to_uint16 x <<< 8) ||| action)

/-- The press branch of `display_GetMenuEvent`: the key looked at, and the `switch`. -/
def display_GetMenuEvent_pressed (K : MenuEnv) (event : keypad_event_t) : Nat :=
  let keypad_key :=
    if event.key = K.key KEYPAD_USB_KEYBOARD then K.keypad_usb_get_keypad_equivalent event
    else event.key
  if keypad_key = K.key KEYPAD_DEC_CONTRAST then
    to_uint16 (K.action U8X8_MSG_GPIO_MENU_PREV)
  else if keypad_key = K.key KEYPAD_INC_CONTRAST then
    to_uint16 (K.action U8X8_MSG_GPIO_MENU_NEXT)
  else if keypad_key = K.key KEYPAD_INC_EXPOSURE then
    to_uint16 (K.action U8X8_MSG_GPIO_MENU_UP)
  else if keypad_key = K.key KEYPAD_DEC_EXPOSURE then
    to_uint16 (K.action U8X8_MSG_GPIO_MENU_DOWN)
  else if keypad_key = K.key KEYPAD_ENCODER_CW then
    menu_event_encode event.count (K.action U8X8_MSG_GPIO_MENU_VALUE_INC)
  else if keypad_key = K.key KEYPAD_ENCODER_CCW then
    menu_event_encode event.count (K.action U8X8_MSG_GPIO_MENU_VALUE_DEC)
  else if keypad_key = K.key KEYPAD_METER_PROBE then
    to_uint16 (K.action U8X8_MSG_GPIO_MENU_PROBE_BTN)
  else if keypad_key = K.key KEYPAD_DENSISTICK then
    to_uint16 (K.action U8X8_MSG_GPIO_MENU_STICK_BTN)
  else
    0

/-- The release branch of `display_GetMenuEvent`: accept keys, then cancel. -/
def display_GetMenuEvent_released (K : MenuEnv) (params : Nat) (event : keypad_event_t) : Nat :=
  if (params &&& K.DISPLAY_MENU_ACCEPT_MENU ≠ 0 ∧ event.key = K.key KEYPAD_MENU)
      ∨ (params &&& K.DISPLAY_MENU_ACCEPT_ADD_ADJUSTMENT ≠ 0
          ∧ event.key = K.key KEYPAD_ADD_ADJUSTMENT)
      ∨ (params &&& K.DISPLAY_MENU_ACCEPT_TEST_STRIP ≠ 0 ∧ event.key = K.key KEYPAD_TEST_STRIP)
      ∨ (params &&& K.DISPLAY_MENU_ACCEPT_ENCODER ≠ 0 ∧ event.key = K.key KEYPAD_ENCODER) then
    menu_event_encode event.key (K.action U8X8_MSG_GPIO_MENU_SELECT)
  else if event.key = K.key KEYPAD_CANCEL then
    to_uint16 (K.action U8X8_MSG_GPIO_MENU_HOME)
  else
    0

/-- The check in `display_GetMenuEvent` that lets the meter probe or DensiStick button act
as an accept button. -/
def display_GetMenuEvent_probe (K : MenuEnv) (params : Nat) (event : keypad_event_t)
    (result : Nat) : Nat :=
  if params &&& K.DISPLAY_MENU_ACCEPT_PROBE ≠ 0
      ∧ result = K.action U8X8_MSG_GPIO_MENU_PROBE_BTN then
    menu_event_encode event.key (K.action U8X8_MSG_GPIO_MENU_SELECT)
  else if params &&& K.DISPLAY_MENU_ACCEPT_STICK ≠ 0
      ∧ result = K.action U8X8_MSG_GPIO_MENU_STICK_BTN then
    menu_event_encode event.key (K.action U8X8_MSG_GPIO_MENU_SELECT)
  else
    result

/-- The USB keyboard mappings at the end of `display_GetMenuEvent`. `keycode` is a
`uint8_t`; `keychar` is a `char`, taken as its byte value: every test and every use below
is the same for either signedness of `char`. The character codes are 10 for newline, 43
for plus, 42 for asterisk, 9 for tab, 8 for backspace and 0x7F for delete. -/
def display_GetMenuEvent_usb (K : MenuEnv) (params : Nat) (event : keypad_event_t)
    (result : Nat) : Nat :=
  if result = 0 ∧ event.key = K.key KEYPAD_USB_KEYBOARD ∧ event.pressed = true then
    let keycode := to_uint8 (K.keypad_usb_get_keycode event)
    let keychar := to_uint8 (K.keypad_usb_get_ascii event)
    if params &&& K.DISPLAY_MENU_ACCEPT_MENU ≠ 0 ∧ keychar = 10 then
      menu_event_encode (K.key KEYPAD_MENU) (K.action U8X8_MSG_GPIO_MENU_SELECT)
    else if params &&& K.DISPLAY_MENU_ACCEPT_ADD_ADJUSTMENT ≠ 0 ∧ keychar = 43 then
      menu_event_encode (K.key KEYPAD_ADD_ADJUSTMENT) (K.action U8X8_MSG_GPIO_MENU_SELECT)
    else if params &&& K.DISPLAY_MENU_ACCEPT_TEST_STRIP ≠ 0 ∧ keychar = 42 then
      menu_event_encode (K.key KEYPAD_TEST_STRIP) (K.action U8X8_MSG_GPIO_MENU_SELECT)
    else if params &&& K.DISPLAY_MENU_ACCEPT_ENCODER ≠ 0 ∧ keychar = 9 then
      menu_event_encode (K.key KEYPAD_ENCODER) (K.action U8X8_MSG_GPIO_MENU_SELECT)
    else if keycode = 0x29 then
      to_uint16 (K.action U8X8_MSG_GPIO_MENU_HOME)
    else if params &&& K.DISPLAY_MENU_INPUT_ASCII ≠ 0 then
      if (keychar ≥ 32 ∧ keychar < 127) ∨ keychar = 10 ∨ keychar = 9 then
        menu_event_encode keychar (K.action U8X8_MSG_GPIO_MENU_INPUT_ASCII)
      else if keycode = 0x2A ∨ keycode = 0xBB then
        menu_event_encode 8 (K.action U8X8_MSG_GPIO_MENU_INPUT_ASCII)
      else if keycode = 0x4C then
        menu_event_encode 0x7F (K.action U8X8_MSG_GPIO_MENU_INPUT_ASCII)
      else
        result
    else
      result
  else
    result

/-- Function `display_GetMenuEvent` of display_internal.c, as a function of `params` and
of what `keypad_wait_for_event` delivered: its status `ret` and the `event` it filled in. -/
def display_GetMenuEvent (K : MenuEnv) (params ret : Nat) (event : keypad_event_t) : Nat :=
  if ret = K.HAL_OK then
    let result :=
      if event.pressed = true then display_GetMenuEvent_pressed K event
      else display_GetMenuEvent_released K params event
    let result := display_GetMenuEvent_probe K params event result
    display_GetMenuEvent_usb K params event result
  else if ret = K.HAL_TIMEOUT then
    if params &&& K.DISPLAY_MENU_INPUT_POLL ≠ 0 then 0 else UINT16_MAX
  else
    0

/-! Section: Value editors (display_internal.c) -/

/-- What one pass of a value editor's inner event loop does: store the value and
`return 1`; `return 0`; call the rollover adjust with `amount` as its delta and redraw;
give up with `UINT16_MAX`; offer the action to the data callback; or wait for the next
event. -/
inductive EditorStep
  | accept
  | cancel
  | adjust (amount : Int)
  | timeout
  | data (event_action : Nat)
  | ignore
  deriving DecidableEq, Repr

/-- The decoding of a menu event at the top of the editors' inner loop, into the
`uint8_t` pair `(event, count)`. -/
def input_value_decode (K : MenuEnv) (event_result : Nat) : Nat × Nat :=
  if event_result = UINT16_MAX then
    (to_uint8 (K.action U8X8_MSG_GPIO_MENU_HOME), 0)
  else
    (to_uint8 (event_result &&& 0x00FF), to_uint8 ((event_result &&& 0xFF00) >>> 8))

/-- The branch chain of `display_UserInterfaceInputValue`, which is also that of
`display_UserInterfaceInputValueCB`; `amount` is an `int8_t`. -/
def display_UserInterfaceInputValue_step (K : MenuEnv) (event_result : Nat) : EditorStep :=
  let event := (input_value_decode K event_result).1
  let count := (input_value_decode K event_result).2
  if event = K.action U8X8_MSG_GPIO_MENU_SELECT then
    .accept
  else if event = K.action U8X8_MSG_GPIO_MENU_HOME then
    .cancel
  else if event = K.action U8X8_MSG_GPIO_MENU_NEXT ∨ event = K.action U8X8_MSG_GPIO_MENU_UP
      ∨ event = K.action U8X8_MSG_GPIO_MENU_VALUE_INC then
    .adjust (to_int8 (if event = K.action U8X8_MSG_GPIO_MENU_VALUE_INC then (count : Int) else 1))
  else if event = K.action U8X8_MSG_GPIO_MENU_PREV ∨ event = K.action U8X8_MSG_GPIO_MENU_DOWN
      ∨ event = K.action U8X8_MSG_GPIO_MENU_VALUE_DEC then
    .adjust (to_int8
      (-1 * (if event = K.action U8X8_MSG_GPIO_MENU_VALUE_DEC then (count : Int) else 1)))
  else
    .ignore

/-- The branch chain of `display_UserInterfaceInputValueU16`, which is also that of
`display_UserInterfaceInputValueF1_2`; `amount` is an `int8_t`. -/
def display_UserInterfaceInputValueU16_step (K : MenuEnv) (event_result : Nat) : EditorStep :=
  let event := (input_value_decode K event_result).1
  let count := (input_value_decode K event_result).2
  if event = K.action U8X8_MSG_GPIO_MENU_SELECT then
    .accept
  else if event = K.action U8X8_MSG_GPIO_MENU_HOME then
    .cancel
  else if event = K.action U8X8_MSG_GPIO_MENU_UP
      ∨ event = K.action U8X8_MSG_GPIO_MENU_VALUE_INC then
    .adjust (to_int8 (if event = K.action U8X8_MSG_GPIO_MENU_VALUE_INC then (count : Int) else 1))
  else if event = K.action U8X8_MSG_GPIO_MENU_NEXT then
    .adjust 10
  else if event = K.action U8X8_MSG_GPIO_MENU_DOWN
      ∨ event = K.action U8X8_MSG_GPIO_MENU_VALUE_DEC then
    .adjust (to_int8
      (-1 * (if event = K.action U8X8_MSG_GPIO_MENU_VALUE_DEC then (count : Int) else 1)))
  else if event = K.action U8X8_MSG_GPIO_MENU_PREV then
    .adjust (-10)
  else
    .ignore

/-- The branch chain of `display_UserInterfaceInputValueF16`. With an event callback a
result of `UINT16_MAX` ends the editor; without one it is decoded like in the other
editors. The last `else` offers the action to the data callback. -/
def display_UserInterfaceInputValueF16_step (K : MenuEnv) (event_callback : Bool)
    (event_result : Nat) : EditorStep :=
  if event_callback = true ∧ event_result = UINT16_MAX then
    .timeout
  else
    let event_action :=
      if event_callback = true then to_uint8 (event_result &&& 0x00FF)
      else (input_value_decode K event_result).1
    let count :=
      if event_callback = true then to_uint8 ((event_result &&& 0xFF00) >>> 8)
      else (input_value_decode K event_result).2
    if event_action = K.action U8X8_MSG_GPIO_MENU_SELECT then
      .accept
    else if event_action = K.action U8X8_MSG_GPIO_MENU_HOME then
      .cancel
    else if event_action = K.action U8X8_MSG_GPIO_MENU_UP
        ∨ event_action = K.action U8X8_MSG_GPIO_MENU_VALUE_INC then
      .adjust (to_int8
        (if event_action = K.action U8X8_MSG_GPIO_MENU_VALUE_INC then (count : Int) else 1))
    else if event_action = K.action U8X8_MSG_GPIO_MENU_NEXT then
      .adjust 10
    else if event_action = K.action U8X8_MSG_GPIO_MENU_DOWN
        ∨ event_action = K.action U8X8_MSG_GPIO_MENU_VALUE_DEC then
      .adjust (to_int8
        (-1 * (if event_action = K.action U8X8_MSG_GPIO_MENU_VALUE_DEC then (count : Int)
          else 1)))
    else if event_action = K.action U8X8_MSG_GPIO_MENU_PREV then
      .adjust (-10)
    else
      .data event_action

/-- Sample values for the constants, to run the definitions on concrete events: the u8g2
messages 80 to 85 as in u8x8.h, the next five numbers for the firmware's own messages,
keys numbered from 1, one bit per flag, and a USB keyboard whose events carry the key code
in `count` and map to no keypad key and no character. -/
def sample_env : MenuEnv where
  action
    | U8X8_MSG_GPIO_MENU_SELECT => 80
    | U8X8_MSG_GPIO_MENU_NEXT => 81
    | U8X8_MSG_GPIO_MENU_PREV => 82
    | U8X8_MSG_GPIO_MENU_HOME => 83
    | U8X8_MSG_GPIO_MENU_UP => 84
    | U8X8_MSG_GPIO_MENU_DOWN => 85
    | U8X8_MSG_GPIO_MENU_VALUE_INC => 86
    | U8X8_MSG_GPIO_MENU_VALUE_DEC => 87
    | U8X8_MSG_GPIO_MENU_PROBE_BTN => 88
    | U8X8_MSG_GPIO_MENU_STICK_BTN => 89
    | U8X8_MSG_GPIO_MENU_INPUT_ASCII => 90
  key
    | KEYPAD_DEC_CONTRAST => 1
    | KEYPAD_INC_CONTRAST => 2
    | KEYPAD_INC_EXPOSURE => 3
    | KEYPAD_DEC_EXPOSURE => 4
    | KEYPAD_ENCODER_CW => 5
    | KEYPAD_ENCODER_CCW => 6
    | KEYPAD_METER_PROBE => 7
    | KEYPAD_DENSISTICK => 8
    | KEYPAD_MENU => 9
    | KEYPAD_ADD_ADJUSTMENT => 10
    | KEYPAD_TEST_STRIP => 11
    | KEYPAD_ENCODER => 12
    | KEYPAD_CANCEL => 13
    | KEYPAD_USB_KEYBOARD => 14
  HAL_OK := 0
  HAL_TIMEOUT := 3
  MENU_TIMEOUT_MS := 30000
  DISPLAY_MENU_ACCEPT_MENU := 0x01
  DISPLAY_MENU_ACCEPT_ADD_ADJUSTMENT := 0x02
  DISPLAY_MENU_ACCEPT_TEST_STRIP := 0x04
  DISPLAY_MENU_ACCEPT_ENCODER := 0x08
  DISPLAY_MENU_ACCEPT_PROBE := 0x10
  DISPLAY_MENU_ACCEPT_STICK := 0x20
  DISPLAY_MENU_INPUT_ASCII := 0x40
  DISPLAY_MENU_INPUT_POLL := 0x80
  DISPLAY_MENU_TIMEOUT_DISABLED := 0x100
  keypad_usb_get_keypad_equivalent := fun _ => 0
  keypad_usb_get_keycode := fun event => event.count
  keypad_usb_get_ascii := fun _ => 0

/-- Some accept flag is set in `params`. -/
def MenuEnv.accepts (K : MenuEnv) (params : Nat) : Prop :=
  params &&& K.DISPLAY_MENU_ACCEPT_MENU ≠ 0
    ∨ params &&& K.DISPLAY_MENU_ACCEPT_ADD_ADJUSTMENT ≠ 0
    ∨ params &&& K.DISPLAY_MENU_ACCEPT_TEST_STRIP ≠ 0
    ∨ params &&& K.DISPLAY_MENU_ACCEPT_ENCODER ≠ 0
    ∨ params &&& K.DISPLAY_MENU_ACCEPT_PROBE ≠ 0
    ∨ params &&& K.DISPLAY_MENU_ACCEPT_STICK ≠ 0

/-- The shape of every menu event result built from a key event: it is 0, or its low byte
is the value of an action, which is `U8X8_MSG_GPIO_MENU_SELECT` only if some accept flag is
set in `params`. -/
def MenuEnv.ActionInLowByte (K : MenuEnv) (params result : Nat) : Prop :=
  result = 0 ∨ ∃ a, result % 256 = K.action a ∧
    (a = U8X8_MSG_GPIO_MENU_SELECT → K.accepts params)

/-! Section: Contrast catalog: lemmas and theorems -/

theorem recipeCheck_sound (s : String) (h : recipeCheck s = true) : IsRecipe s := by
  unfold recipeCheck at h
  split at h
  · rename_i rest hrest
    simp only [Bool.and_eq_true, Bool.not_eq_true', beq_iff_eq] at h
    obtain ⟨⟨hy, hm⟩, htail⟩ := h
    refine ⟨s.data.takeWhile Char.isDigit, rest.takeWhile Char.isDigit, ?_, ?_, ?_, ?_, ?_⟩
    · intro h0; simp [h0] at hy
    · intro h0; simp [h0] at hm
    · intro c hc; exact (List.mem_takeWhile_imp hc)
    · intro c hc; exact (List.mem_takeWhile_imp hc)
    · have h1 := (List.takeWhile_append_dropWhile Char.isDigit s.data).symm
      have h2 := (List.takeWhile_append_dropWhile Char.isDigit rest).symm
      rw [htail] at h2
      rw [hrest] at h1
      rw [← h2]
      exact h1
  · exact absurd h (by simp)

/-- Claim C1: `contrast_grade_str` returns, for a grade ordinal `g` with `0 ≤ g < 12`, the
`g`-th label of the list 00, 0, 1/2, 1, 1-1/2, 2, 2-1/2, 3, 3-1/2, 4, 4-1/2, 5, and the
empty string for every other value of `g` (negative, or 12 and above). -/
theorem contrast_grade_str_labels (g : Int) :
    (0 ≤ g ∧ g < 12 → ∃ s,
        ["00", "0", "1/2", "1", "1-1/2", "2", "2-1/2", "3", "3-1/2", "4", "4-1/2",
          "5"][g.toNat]? = some s ∧
        contrast_grade_str g = Outcome.ret (some s)) ∧
    (g < 0 ∨ 12 ≤ g → contrast_grade_str g = Outcome.ret (some "")) := by
  constructor
  · rintro ⟨h0, h1⟩
    interval_cases g <;> exact ⟨_, rfl, by decide⟩
  · intro h
    have hr : ¬ (g ≥ CONTRAST_GRADE_00 ∧ g < CONTRAST_GRADE_MAX) := by
      simp only [CONTRAST_GRADE_00, CONTRAST_GRADE_MAX]; omega
    simp [contrast_grade_str, contrast_grade_str_stmt, hr, Ret.eval]

theorem contrast_grade_str_labels_witness :
    contrast_grade_str 4 = Outcome.ret (some "1-1/2") ∧
    contrast_grade_str 12 = Outcome.ret (some "") ∧
    contrast_grade_str (-1) = Outcome.ret (some "") := by
  obtain ⟨s, hs, h⟩ := (contrast_grade_str_labels 4).1 ⟨by decide, by decide⟩
  have hs4 : s = "1-1/2" := by simpa using hs.symm
  subst hs4
  exact ⟨h, (contrast_grade_str_labels 12).2 (Or.inr (by decide)),
    (contrast_grade_str_labels (-1)).2 (Or.inl (by decide))⟩

/-- Claim C2: for the Regular filter `contrast_filter_grade_str` returns `NULL` whatever
the grade is, inside `[0, 12)` or not. -/
theorem contrast_filter_grade_str_regular_absent (g : Int) :
    contrast_filter_grade_str CONTRAST_FILTER_REGULAR g = Outcome.ret none := by
  unfold contrast_filter_grade_str contrast_filter_grade_str_stmt
  split <;> simp [Ret.eval]

/-- Claim C3: for the Meopta filter and a grade ordinal `g` in `[0, 12)`,
`contrast_filter_grade_str` returns the marker `--` exactly at the half grades (ordinals
2, 4, 6, 8, 10), and at every whole grade (ordinals 0, 1, 3, 5, 7, 9, 11) it returns a
Yellow+Magenta recipe string. -/
theorem contrast_filter_grade_str_meopta (g : Int) (h0 : 0 ≤ g) (h1 : g < 12) :
    (contrast_filter_grade_str CONTRAST_FILTER_MEOPTA g = Outcome.ret (some "--") ↔
      (g = 2 ∨ g = 4 ∨ g = 6 ∨ g = 8 ∨ g = 10)) ∧
    ((g = 0 ∨ g = 1 ∨ g = 3 ∨ g = 5 ∨ g = 7 ∨ g = 9 ∨ g = 11) →
      ∃ s, contrast_filter_grade_str CONTRAST_FILTER_MEOPTA g = Outcome.ret (some s) ∧
        IsRecipe s) := by
  interval_cases g <;> refine ⟨by decide, fun h => ?_⟩ <;>
    first
    | exact absurd h (by decide)
    | exact ⟨_, rfl, recipeCheck_sound _ (by decide)⟩

theorem contrast_filter_grade_str_meopta_witness :
    (contrast_filter_grade_str CONTRAST_FILTER_MEOPTA 6 = Outcome.ret (some "--") ↔
      ((6 : Int) = 2 ∨ (6 : Int) = 4 ∨ (6 : Int) = 6 ∨ (6 : Int) = 8 ∨ (6 : Int) = 10)) ∧
    (∃ s, contrast_filter_grade_str CONTRAST_FILTER_MEOPTA 7 = Outcome.ret (some s) ∧
      IsRecipe s) :=
  ⟨(contrast_filter_grade_str_meopta 6 (by decide) (by decide)).1,
   (contrast_filter_grade_str_meopta 7 (by decide) (by decide)).2 (by decide)⟩

/-- Claim C4: for each of the filters Durst170M, Durst130M, Kodak, FocomatV35 and every
grade ordinal `g` in `[0, 12)`, `contrast_filter_grade_str` returns a non-`NULL` string of
the form `<y>Y+<m>M` with `<y>`, `<m>` non-empty runs of decimal digits; the string is
never the `--` marker. -/
theorem contrast_filter_grade_str_recipe (f g : Int)
    (hf : f = CONTRAST_FILTER_DURST_170M ∨ f = CONTRAST_FILTER_DURST_130M ∨
      f = CONTRAST_FILTER_KODAK ∨ f = CONTRAST_FILTER_LEITZ_FOCOMAT_V35)
    (h0 : 0 ≤ g) (h1 : g < 12) :
    ∃ s, contrast_filter_grade_str f g = Outcome.ret (some s) ∧ IsRecipe s ∧ s ≠ "--" := by
  rcases hf with rfl | rfl | rfl | rfl <;> interval_cases g <;>
    (refine ⟨_, rfl, ?_, ?_⟩ <;> first | exact recipeCheck_sound _ (by decide) | decide)

theorem contrast_filter_grade_str_recipe_witness :
    ∃ s, contrast_filter_grade_str CONTRAST_FILTER_KODAK 6 = Outcome.ret (some s) ∧
      IsRecipe s ∧ s ≠ "--" :=
  contrast_filter_grade_str_recipe CONTRAST_FILTER_KODAK 6 (by decide) (by decide) (by decide)

/-- Claim C5: `contrast_filter_grade_str(Durst170M, 11)` is exactly `0Y+170M`, and grade
ordinal 11 is the grade labelled 5. -/
theorem contrast_filter_grade_str_durst170m_hardest :
    contrast_filter_grade_str CONTRAST_FILTER_DURST_170M 11 = Outcome.ret (some "0Y+170M") ∧
    contrast_grade_str 11 = Outcome.ret (some "5") := by
  decide

/-- Claim C6: for every filter value, in the catalog or not, and every grade outside
`[0, 12)`, `contrast_filter_grade_str` reaches a `return NULL;` (so reads no table) and
returns `NULL` without a fault. -/
theorem contrast_filter_grade_str_out_of_range (f g : Int) (h : g < 0 ∨ 12 ≤ g) :
    contrast_filter_grade_str_stmt f g = Ret.null ∧
    contrast_filter_grade_str f g = Outcome.ret none := by
  have hs : contrast_filter_grade_str_stmt f g = Ret.null := by
    have hr : ¬ (g ≥ CONTRAST_GRADE_00 ∧ g < CONTRAST_GRADE_MAX) := by
      simp only [CONTRAST_GRADE_00, CONTRAST_GRADE_MAX]; omega
    simp [contrast_filter_grade_str_stmt, hr]
  exact ⟨hs, by simp [contrast_filter_grade_str, hs, Ret.eval]⟩

theorem contrast_filter_grade_str_out_of_range_witness :
    (contrast_filter_grade_str_stmt CONTRAST_FILTER_MEOPTA 12 = Ret.null ∧
      contrast_filter_grade_str CONTRAST_FILTER_MEOPTA 12 = Outcome.ret none) ∧
    (contrast_filter_grade_str_stmt 77 (-1) = Ret.null ∧
      contrast_filter_grade_str 77 (-1) = Outcome.ret none) :=
  ⟨contrast_filter_grade_str_out_of_range CONTRAST_FILTER_MEOPTA 12 (Or.inr (by decide)),
   contrast_filter_grade_str_out_of_range 77 (-1) (Or.inl (by decide))⟩

/-- Claim C7: `contrast_filter_name_str` returns, for the filter ordinals 0..5 (Regular,
Durst170M, Durst130M, Kodak, FocomatV35, Meopta), the names Regular, Durst (170M),
Durst (130M), Kodak, Focomat V35, Meopta in this order, and the empty string for every
filter value outside `[0, 6)`. -/
theorem contrast_filter_name_str_names (f : Int) :
    contrast_filter_name_str CONTRAST_FILTER_REGULAR = Outcome.ret (some "Regular") ∧
    contrast_filter_name_str CONTRAST_FILTER_DURST_170M = Outcome.ret (some "Durst (170M)") ∧
    contrast_filter_name_str CONTRAST_FILTER_DURST_130M = Outcome.ret (some "Durst (130M)") ∧
    contrast_filter_name_str CONTRAST_FILTER_KODAK = Outcome.ret (some "Kodak") ∧
    contrast_filter_name_str CONTRAST_FILTER_LEITZ_FOCOMAT_V35
      = Outcome.ret (some "Focomat V35") ∧
    contrast_filter_name_str CONTRAST_FILTER_MEOPTA = Outcome.ret (some "Meopta") ∧
    [CONTRAST_FILTER_REGULAR, CONTRAST_FILTER_DURST_170M, CONTRAST_FILTER_DURST_130M,
      CONTRAST_FILTER_KODAK, CONTRAST_FILTER_LEITZ_FOCOMAT_V35, CONTRAST_FILTER_MEOPTA]
      = [0, 1, 2, 3, 4, 5] ∧
    (f < 0 ∨ 6 ≤ f → contrast_filter_name_str f = Outcome.ret (some "")) := by
  refine ⟨by decide, by decide, by decide, by decide, by decide, by decide, by decide, ?_⟩
  intro h
  have hr : ¬ (f ≥ CONTRAST_FILTER_REGULAR ∧ f < CONTRAST_FILTER_MAX) := by
    simp only [CONTRAST_FILTER_REGULAR, CONTRAST_FILTER_MAX]; omega
  simp [contrast_filter_name_str, contrast_filter_name_str_stmt, hr, Ret.eval]

theorem contrast_filter_name_str_names_witness :
    contrast_filter_name_str 6 = Outcome.ret (some "") ∧
    contrast_filter_name_str (-1) = Outcome.ret (some "") :=
  ⟨(contrast_filter_name_str_names 6).2.2.2.2.2.2.2 (Or.inr (by decide)),
   (contrast_filter_name_str_names (-1)).2.2.2.2.2.2.2 (Or.inl (by decide))⟩

/-! Section: Rollover arithmetic: lemmas and theorems -/

theorem adjust_with_rollover_bounds (v : Nat) (delta : Int) (low high : Nat)
    (h : low ≤ high) :
    low ≤ adjust_with_rollover v delta low high ∧
      adjust_with_rollover v delta low high ≤ high := by
  unfold adjust_with_rollover
  have hw : (0 : Int) < (high : Int) - (low : Int) + 1 := by omega
  have h1 := Int.emod_nonneg ((v : Int) - (low : Int) + delta) (ne_of_gt hw)
  have h2 := Int.emod_lt_of_pos ((v : Int) - (low : Int) + delta) hw
  omega

theorem value_adjust_with_rollover_u8_eq (v : Nat) (delta : Int) (low high : Nat)
    (h : low ≤ high) (h8 : high < 2 ^ 8) :
    value_adjust_with_rollover_u8 v delta low high = adjust_with_rollover v delta low high := by
  have hb := adjust_with_rollover_bounds v delta low high h
  exact Nat.mod_eq_of_lt (by omega)

theorem value_adjust_with_rollover_u16_eq (v : Nat) (delta : Int) (low high : Nat)
    (h : low ≤ high) (h16 : high < 2 ^ 16) :
    value_adjust_with_rollover_u16 v delta low high = adjust_with_rollover v delta low high := by
  have hb := adjust_with_rollover_bounds v delta low high h
  exact Nat.mod_eq_of_lt (by omega)

theorem adjust_with_rollover_succ (v low high : Nat) (hl : low ≤ v) (hh : v ≤ high) :
    adjust_with_rollover v 1 low high = low + (v - low + 1) % (high - low + 1) := by
  unfold adjust_with_rollover
  have e1 : (v : Int) - (low : Int) + 1 = ((v - low + 1 : Nat) : Int) := by omega
  have e2 : (high : Int) - (low : Int) + 1 = ((high - low + 1 : Nat) : Int) := by omega
  rw [e1, e2, ← Int.ofNat_emod, Int.toNat_ofNat]

theorem adjust_with_rollover_iterate (low high : Nat) (k v : Nat) (hl : low ≤ v)
    (hh : v ≤ high) :
    (fun x => adjust_with_rollover x 1 low high)^[k] v
      = low + (v - low + k) % (high - low + 1) := by
  induction k with
  | zero =>
    have hm : (v - low) % (high - low + 1) = v - low := Nat.mod_eq_of_lt (by omega)
    simp only [Function.iterate_zero, id_eq, Nat.add_zero, hm]
    omega
  | succ k ih =>
    rw [Function.iterate_succ_apply', ih]
    have hlt : (v - low + k) % (high - low + 1) < high - low + 1 := Nat.mod_lt _ (by omega)
    rw [adjust_with_rollover_succ _ _ _ (by omega) (by omega)]
    have hc : low + (v - low + k) % (high - low + 1) - low
        = (v - low + k) % (high - low + 1) := by
      omega
    rw [hc, Nat.mod_add_mod, Nat.add_assoc]

theorem adjust_with_rollover_full_cycle (v low high : Nat) (hl : low ≤ v) (hh : v ≤ high) :
    (fun x => adjust_with_rollover x 1 low high)^[high - low + 1] v = v := by
  rw [adjust_with_rollover_iterate low high _ v hl hh, Nat.add_mod_right,
    Nat.mod_eq_of_lt (by omega)]
  omega

theorem adjust_with_rollover_succ_high (low high : Nat) (h : low ≤ high) :
    adjust_with_rollover high 1 low high = low := by
  rw [adjust_with_rollover_succ high low high h (Nat.le_refl _), Nat.mod_self]
  rfl

theorem adjust_with_rollover_pred_low (low high : Nat) (h : low ≤ high) :
    adjust_with_rollover low (-1) low high = high := by
  unfold adjust_with_rollover
  have hw : (0 : Int) < (high : Int) - (low : Int) + 1 := by omega
  have e : ((low : Int) - (low : Int) + -1) % ((high : Int) - (low : Int) + 1)
      = (high : Int) - (low : Int) := by
    rw [← Int.add_emod_self]
    have e0 : (low : Int) - (low : Int) + -1 + ((high : Int) - (low : Int) + 1)
        = (high : Int) - (low : Int) := by omega
    rw [e0]
    apply Int.emod_eq_of_lt <;> omega
  rw [e]
  omega

/-- Claim C8: for every value `v`, every signed `delta` and every `low ≤ high` (within the
8-bit, respectively 16-bit, domain of the variant), the rollover adjust returns a result
`r` with `low ≤ r ≤ high`. -/
theorem value_adjust_with_rollover_in_range (v : Nat) (delta : Int) (low high : Nat)
    (h : low ≤ high) :
    (high < 2 ^ 8 →
      low ≤ value_adjust_with_rollover_u8 v delta low high ∧
        value_adjust_with_rollover_u8 v delta low high ≤ high) ∧
    (high < 2 ^ 16 →
      low ≤ value_adjust_with_rollover_u16 v delta low high ∧
        value_adjust_with_rollover_u16 v delta low high ≤ high) := by
  constructor
  · intro h8
    rw [value_adjust_with_rollover_u8_eq v delta low high h h8]
    exact adjust_with_rollover_bounds v delta low high h
  · intro h16
    rw [value_adjust_with_rollover_u16_eq v delta low high h h16]
    exact adjust_with_rollover_bounds v delta low high h

theorem value_adjust_with_rollover_in_range_witness :
    (10 ≤ value_adjust_with_rollover_u8 250 (-128) 10 20 ∧
      value_adjust_with_rollover_u8 250 (-128) 10 20 ≤ 20) ∧
    (10 ≤ value_adjust_with_rollover_u16 3 127 10 20 ∧
      value_adjust_with_rollover_u16 3 127 10 20 ≤ 20) :=
  ⟨(value_adjust_with_rollover_in_range 250 (-128) 10 20 (by decide)).1 (by decide),
   (value_adjust_with_rollover_in_range 3 127 10 20 (by decide)).2 (by decide)⟩

/-- Claim C9: for every `low ≤ high` and every `v` in `[low, high]`, applying the rollover
adjust with delta `+1` exactly `high - low + 1` times gives back `v`; one `+1` at `high`
gives `low` and one `-1` at `low` gives `high`; in the 8-bit and in the 16-bit variant. -/
theorem value_adjust_with_rollover_full_cycle (v low high : Nat) (hl : low ≤ v)
    (hh : v ≤ high) :
    (high < 2 ^ 8 →
      (fun x => value_adjust_with_rollover_u8 x 1 low high)^[high - low + 1] v = v ∧
      value_adjust_with_rollover_u8 high 1 low high = low ∧
      value_adjust_with_rollover_u8 low (-1) low high = high) ∧
    (high < 2 ^ 16 →
      (fun x => value_adjust_with_rollover_u16 x 1 low high)^[high - low + 1] v = v ∧
      value_adjust_with_rollover_u16 high 1 low high = low ∧
      value_adjust_with_rollover_u16 low (-1) low high = high) := by
  have h : low ≤ high := Nat.le_trans hl hh
  constructor
  · intro h8
    have hf : (fun x => value_adjust_with_rollover_u8 x 1 low high)
        = (fun x => adjust_with_rollover x 1 low high) :=
      funext fun x => value_adjust_with_rollover_u8_eq x 1 low high h h8
    rw [hf, value_adjust_with_rollover_u8_eq _ _ _ _ h h8,
      value_adjust_with_rollover_u8_eq _ _ _ _ h h8]
    exact ⟨adjust_with_rollover_full_cycle v low high hl hh,
      adjust_with_rollover_succ_high low high h, adjust_with_rollover_pred_low low high h⟩
  · intro h16
    have hf : (fun x => value_adjust_with_rollover_u16 x 1 low high)
        = (fun x => adjust_with_rollover x 1 low high) :=
      funext fun x => value_adjust_with_rollover_u16_eq x 1 low high h h16
    rw [hf, value_adjust_with_rollover_u16_eq _ _ _ _ h h16,
      value_adjust_with_rollover_u16_eq _ _ _ _ h h16]
    exact ⟨adjust_with_rollover_full_cycle v low high hl hh,
      adjust_with_rollover_succ_high low high h, adjust_with_rollover_pred_low low high h⟩

theorem value_adjust_with_rollover_full_cycle_witness :
    ((fun x => value_adjust_with_rollover_u8 x 1 3 7)^[7 - 3 + 1] 5 = 5 ∧
      value_adjust_with_rollover_u8 7 1 3 7 = 3 ∧
      value_adjust_with_rollover_u8 3 (-1) 3 7 = 7) ∧
    ((fun x => value_adjust_with_rollover_u16 x 1 0 999)^[999 - 0 + 1] 250 = 250 ∧
      value_adjust_with_rollover_u16 999 1 0 999 = 0 ∧
      value_adjust_with_rollover_u16 0 (-1) 0 999 = 999) :=
  ⟨(value_adjust_with_rollover_full_cycle 5 3 7 (by decide) (by decide)).1 (by decide),
   (value_adjust_with_rollover_full_cycle 250 0 999 (by decide) (by decide)).2 (by decide)⟩

/-! Section: Tone-graph accessors: lemmas and theorems -/

theorem and_two_pow_ne_zero_iff (x i : Nat) : x &&& 2 ^ i ≠ 0 ↔ x.testBit i = true := by
  constructor
  · intro h
    by_contra hb
    apply h
    apply Nat.zero_of_testBit_eq_false
    intro j
    rw [Nat.testBit_and, Nat.testBit_two_pow]
    by_cases hij : i = j
    · subst hij; simp [hb]
    · simp [hij]
  · intro hb h0
    have ht : (x &&& 2 ^ i).testBit i = true := by
      rw [Nat.testBit_and, Nat.testBit_two_pow_self, hb]; rfl
    rw [h0] at ht
    simp at ht

theorem one_shift_in_word (i : Nat) (hi : i ≤ 16) : (1 <<< i) % 2 ^ 32 = 2 ^ i := by
  rw [Nat.one_shiftLeft]
  apply Nat.mod_eq_of_lt
  exact Nat.pow_lt_pow_right (by decide) (by omega)

/-- Claim C10: for every tone graph `x` (every 32-bit one in particular) and every
position `i` in 0..16, `EXPOSURE_TONE_IS_SET(x, i)` is non-zero exactly when bit `i` of
`x` is set; `EXPOSURE_TONE_IS_LOWER_BOUND(x)` is `EXPOSURE_TONE_IS_SET(x, 0)` and
`EXPOSURE_TONE_IS_UPPER_BOUND(x)` is `EXPOSURE_TONE_IS_SET(x, 16)`. -/
theorem exposure_tone_accessors (x : Nat) :
    (∀ i, i ≤ 16 → (EXPOSURE_TONE_IS_SET x i ≠ 0 ↔ x.testBit i = true)) ∧
    EXPOSURE_TONE_IS_LOWER_BOUND x = EXPOSURE_TONE_IS_SET x 0 ∧
    EXPOSURE_TONE_IS_UPPER_BOUND x = EXPOSURE_TONE_IS_SET x 16 := by
  refine ⟨?_, ?_, ?_⟩
  · intro i hi
    unfold EXPOSURE_TONE_IS_SET
    rw [one_shift_in_word i hi]
    exact and_two_pow_ne_zero_iff x i
  · unfold EXPOSURE_TONE_IS_SET EXPOSURE_TONE_IS_LOWER_BOUND
    rw [one_shift_in_word 0 (by omega)]
    rfl
  · unfold EXPOSURE_TONE_IS_SET EXPOSURE_TONE_IS_UPPER_BOUND
    rw [one_shift_in_word 16 (by omega)]
    rfl

theorem exposure_tone_accessors_witness :
    (EXPOSURE_TONE_IS_SET 0x00010001 16 ≠ 0 ↔ Nat.testBit 0x00010001 16 = true) ∧
    (EXPOSURE_TONE_IS_SET 0x00010001 7 ≠ 0 ↔ Nat.testBit 0x00010001 7 = true) :=
  ⟨(exposure_tone_accessors 0x00010001).1 16 (by decide),
   (exposure_tone_accessors 0x00010001).1 7 (by decide)⟩


/-! Section: Adjustment increments: theorems -/

/-- Claim C11: the six adjustment increments, in the order twelfth, sixth, quarter, third,
half, whole, are encoded by values that each divide 12, whose quotients `12 / v` are the
denominators 12, 6, 4, 3, 2, 1 in this order, and that are strictly increasing. -/
theorem exposure_adjustment_increment_denominators :
    (∀ v ∈ [EXPOSURE_ADJ_TWELFTH, EXPOSURE_ADJ_SIXTH, EXPOSURE_ADJ_QUARTER,
      EXPOSURE_ADJ_THIRD, EXPOSURE_ADJ_HALF, EXPOSURE_ADJ_WHOLE], v ∣ 12) ∧
    [EXPOSURE_ADJ_TWELFTH, EXPOSURE_ADJ_SIXTH, EXPOSURE_ADJ_QUARTER,
      EXPOSURE_ADJ_THIRD, EXPOSURE_ADJ_HALF, EXPOSURE_ADJ_WHOLE].map (fun v => 12 / v)
      = [12, 6, 4, 3, 2, 1] ∧
    List.Pairwise (fun a b => a < b) [EXPOSURE_ADJ_TWELFTH, EXPOSURE_ADJ_SIXTH,
      EXPOSURE_ADJ_QUARTER, EXPOSURE_ADJ_THIRD, EXPOSURE_ADJ_HALF, EXPOSURE_ADJ_WHOLE] := by
  decide

/-! Section: Number formatting: lemmas and theorems -/

theorem toDigitsCore_length_le (fuel : Nat) :
    ∀ (k n : Nat) (acc : List Char), n < 10 ^ (k + 1) →
      (Nat.toDigitsCore 10 fuel n acc).length ≤ k + 1 + acc.length := by
  induction fuel with
  | zero =>
    intro k n acc _
    simp only [Nat.toDigitsCore]
    omega
  | succ fuel ih =>
    intro k n acc hn
    simp only [Nat.toDigitsCore]
    split
    · simp only [List.length_cons]
      omega
    · rename_i hne
      cases k with
      | zero =>
        exact absurd (Nat.div_eq_of_lt (by simpa using hn)) hne
      | succ k =>
        have hdiv : n / 10 < 10 ^ (k + 1) := by
          rw [Nat.div_lt_iff_lt_mul (by decide)]
          calc n < 10 ^ (k + 1 + 1) := hn
            _ = 10 ^ (k + 1) * 10 := by rw [Nat.pow_succ]
        have h := ih k (n / 10) (Nat.digitChar (n % 10) :: acc) hdiv
        simp only [List.length_cons] at h
        omega

theorem toDigits_length_le (k n : Nat) (hn : n < 10 ^ (k + 1)) :
    (Nat.toDigits 10 n).length ≤ k + 1 := by
  have h := toDigitsCore_length_le (n + 1) k n [] hn
  simpa [Nat.toDigits] using h

theorem printf_d_length (zero_flag : Bool) (width n : Nat) :
    (printf_d zero_flag width n).length = max width (Nat.toDigits 10 n).length := by
  simp only [printf_d, List.length_append, List.length_replicate]
  omega

/-- Claim C15: for every 16-bit `v` and every digit count `d`, `display_u16toa(v, d)` is
the decimal representation of `v` with spaces in front of it up to a field of `min(d, 5)`
characters; all digits of `v` are there, and the length is the larger of `min(d, 5)` and
the number of decimal digits of `v`, at most 5. -/
theorem display_u16toa_padded (v d : Nat) (hv : v < 2 ^ 16) :
    display_u16toa v d
      = String.mk (List.replicate (min d 5 - (Nat.repr v).length) ' ' ++ (Nat.repr v).data) ∧
    (display_u16toa v d).length = max (min d 5) (Nat.repr v).length ∧
    (display_u16toa v d).length ≤ 5 := by
  have hlen : (Nat.toDigits 10 v).length ≤ 5 := toDigits_length_le 4 v (by omega)
  have hd : (if d > 5 then 5 else d) = min d 5 := by split <;> omega
  have hrepr : (Nat.repr v).data = Nat.toDigits 10 v := rfl
  have hreprlen : (Nat.repr v).length = (Nat.toDigits 10 v).length := rfl
  have htext : (printf_d false (min d 5) v).length ≤ 6 - 1 := by
    rw [printf_d_length]; omega
  have heq : display_u16toa v d = String.mk (printf_d false (min d 5) v) := by
    simp only [display_u16toa, snprintf, hd]
    rw [List.take_of_length_le htext]
  have hl : (display_u16toa v d).length = max (min d 5) (Nat.toDigits 10 v).length := by
    rw [heq]
    exact printf_d_length false (min d 5) v
  refine ⟨?_, ?_, ?_⟩
  · rw [heq, hrepr, hreprlen]
    simp [printf_d]
  · rw [hl, hreprlen]
  · rw [hl]; omega

theorem display_u16toa_padded_witness :
    display_u16toa 42 4 = "  42" ∧ display_u16toa 65535 2 = "65535" ∧
    (display_u16toa 65535 2).length = max (min 2 5) (Nat.repr 65535).length := by
  have h1 := display_u16toa_padded 42 4 (by decide)
  have h2 := display_u16toa_padded 65535 2 (by decide)
  refine ⟨?_, ?_, h2.2.1⟩
  · rw [h1.1]; decide
  · rw [h2.1]; decide

theorem display_f16toa_small_fraction (val wdigits fdigits : Nat) (hv : val < 2 ^ 16)
    (hf : fdigits = 1 ∨ fdigits = 2) (hw : wdigits + fdigits ≤ 5) :
    display_f16toa val wdigits fdigits
      = Outcome.ret (some (fixed_point_text val wdigits fdigits)) := by
  have hpow : uint_pow 10 fdigits % 2 ^ 8 = 10 ^ fdigits := by
    rcases hf with rfl | rfl <;> decide
  have hpos : 10 ^ fdigits ≠ 0 := by rcases hf with rfl | rfl <;> decide
  have hnot : ¬ (wdigits + fdigits > 5) := by omega
  have hwv : val / 10 ^ fdigits % 2 ^ 16 = val / 10 ^ fdigits :=
    Nat.mod_eq_of_lt (lt_of_le_of_lt (Nat.div_le_self _ _) hv)
  have hfv : val % 10 ^ fdigits % 2 ^ 16 = val % 10 ^ fdigits :=
    Nat.mod_eq_of_lt (lt_of_le_of_lt (Nat.mod_le _ _) hv)
  have hlen : (printf_d false wdigits (val / 10 ^ fdigits)
      ++ '.' :: printf_d true fdigits (val % 10 ^ fdigits)).length ≤ 7 - 1 := by
    simp only [List.length_append, List.length_cons, printf_d_length]
    rcases hf with rfl | rfl
    · have h1 := toDigits_length_le 3 (val / 10 ^ 1) (by omega)
      have h2 := toDigits_length_le 0 (val % 10 ^ 1) (by omega)
      omega
    · have h1 := toDigits_length_le 2 (val / 10 ^ 2) (by omega)
      have h2 := toDigits_length_le 1 (val % 10 ^ 2) (by omega)
      omega
  simp only [display_f16toa, hpow, hpos, hnot, if_false, hwv, hfv, snprintf, fixed_point_text]
  rw [List.take_of_length_le hlen]

/-- Claim C12: evaluation at `val = 1000`, `wdigits = 2`, `fdigits = 3`, a combination
`display_UserInterfaceInputValueF16` accepts. The 8-bit `uint_pow(10, 3)` is 232 instead of
1000, and `display_f16toa` yields ` 4.072`, while the fixed-point rendering of 1000 with
three fractional digits is ` 1.000`. -/
theorem display_f16toa_three_fraction_digits :
    display_UserInterfaceInputValueF16_accepts 2 3 = true ∧
    uint_pow 10 3 = 232 ∧
    display_f16toa 1000 2 3 = Outcome.ret (some " 4.072") ∧
    fixed_point_text 1000 2 3 = " 1.000" := by
  decide

/-! Section: F1_2 editor: lemmas and theorems -/

theorem display_UserInterfaceInputValueF1_2_constrain_bounds (value low high : Nat) :
    (display_UserInterfaceInputValueF1_2_constrain value low high).2.1
        ≤ (display_UserInterfaceInputValueF1_2_constrain value low high).1 ∧
      (display_UserInterfaceInputValueF1_2_constrain value low high).1
        ≤ (display_UserInterfaceInputValueF1_2_constrain value low high).2.2 ∧
      (display_UserInterfaceInputValueF1_2_constrain value low high).2.2 ≤ 999 := by
  unfold display_UserInterfaceInputValueF1_2_constrain
  dsimp only
  refine ⟨?_, ?_, ?_⟩ <;> split_ifs <;> omega

theorem display_f1_2toa_digits (v : Nat) (sep : Char) (hv : v ≤ 999) :
    ∃ a b c : Nat, a ≤ 9 ∧ b ≤ 9 ∧ c ≤ 9 ∧ 100 * a + 10 * b + c = v ∧
      display_f1_2toa v sep
        = String.mk [Char.ofNat ('0'.toNat + a), sep, Char.ofNat ('0'.toNat + b),
            Char.ofNat ('0'.toNat + c)] :=
  ⟨v % 1000 / 100, v % 100 / 10, v % 10, by omega, by omega, by omega, by omega, rfl⟩

/-- Claim C14: whatever the initial `*value`, `low` and `high` are (also with `low > high`
or `high > 999`), after the "explicitly constrain input values" step of
`display_UserInterfaceInputValueF1_2` the working values satisfy
`low ≤ local_value ≤ high ≤ 999`, and `display_f1_2toa` shows `local_value` exactly: its
three digits `a`, `b`, `c` have `100 a + 10 b + c = local_value`. -/
theorem display_UserInterfaceInputValueF1_2_constrained (value low high : Nat) :
    ∃ local_value low' high',
      display_UserInterfaceInputValueF1_2_constrain value low high
        = (local_value, low', high') ∧
      low' ≤ local_value ∧ local_value ≤ high' ∧ high' ≤ 999 ∧
      ∀ sep : Char, ∃ a b c : Nat, a ≤ 9 ∧ b ≤ 9 ∧ c ≤ 9 ∧
        100 * a + 10 * b + c = local_value ∧
        display_f1_2toa local_value sep
          = String.mk [Char.ofNat ('0'.toNat + a), sep, Char.ofNat ('0'.toNat + b),
              Char.ofNat ('0'.toNat + c)] := by
  obtain ⟨h1, h2, h3⟩ := display_UserInterfaceInputValueF1_2_constrain_bounds value low high
  exact ⟨_, _, _, rfl, h1, h2, h3,
    fun sep => display_f1_2toa_digits _ sep (Nat.le_trans h2 h3)⟩

/-! Section: Menu events: lemmas and theorems -/

theorem sample_env_wellFormed : sample_env.WellFormed where
  action_injective := by
    intro a b h
    cases a <;> cases b <;> first | rfl | exact absurd h (by decide)
  action_pos := by intro a; cases a <;> decide
  action_lt := by intro a; cases a <;> decide
  key_injective := by
    intro a b h
    cases a <;> cases b <;> first | rfl | exact absurd h (by decide)
  key_lt := by intro k; cases k <;> decide
  hal_distinct := by decide

theorem menu_event_encode_eq (x a : Nat) (hx : x < 256) (ha : a < 256) :
    menu_event_encode x a = x * 256 + a := by
  unfold menu_event_encode to_uint16
  have hor : 2 ^ 8 * x + a = 2 ^ 8 * x ||| a := Nat.mul_add_lt_is_or (by omega) x
  rw [Nat.mod_eq_of_lt (by omega : x < 2 ^ 16), Nat.shiftLeft_eq, Nat.mul_comm x, ← hor]
  omega

theorem menu_event_encode_mod (x a : Nat) (ha : a < 256) :
    menu_event_encode x a % 256 = a := by
  unfold menu_event_encode to_uint16
  have hor : 2 ^ 8 * (x % 2 ^ 16) + a = 2 ^ 8 * (x % 2 ^ 16) ||| a :=
    Nat.mul_add_lt_is_or (by omega) _
  rw [Nat.shiftLeft_eq, Nat.mul_comm (x % 2 ^ 16), ← hor]
  omega

theorem to_uint16_action (K : MenuEnv) (hK : K.WellFormed) (a : MenuAction) :
    to_uint16 (K.action a) = K.action a := by
  have h := hK.action_lt a
  unfold to_uint16
  omega

theorem and_ff00_shift (r : Nat) : (r &&& 0xFF00) >>> 8 = r / 256 % 256 := by
  apply Nat.eq_of_testBit_eq
  intro j
  have h1 : (0xFF00 : Nat) = (2 ^ 8 - 1) <<< 8 := by decide
  have h2 : r / 256 = r >>> 8 := by rw [Nat.shiftRight_eq_div_pow]
  have h3 : (256 : Nat) = 2 ^ 8 := by decide
  rw [h2, h3, Nat.testBit_mod_two_pow, Nat.testBit_shiftRight, Nat.testBit_shiftRight,
    Nat.testBit_and, h1, Nat.testBit_shiftLeft, Nat.testBit_two_pow_sub_one]
  by_cases hj : j < 8 <;> simp [hj]

theorem input_value_decode_encoded (K : MenuEnv) (x a : Nat) (hx : x < 256) (ha : a < 255) :
    input_value_decode K (x * 256 + a) = (a, x) := by
  unfold input_value_decode UINT16_MAX to_uint8
  have hne : ¬ (x * 256 + a = 65535) := by omega
  have hlow : (x * 256 + a) &&& 0x00FF = (x * 256 + a) % 2 ^ 8 :=
    Nat.and_pow_two_sub_one_eq_mod _ 8
  rw [if_neg hne, and_ff00_shift, hlow]
  have e1 : (x * 256 + a) % 2 ^ 8 % 2 ^ 8 = a := by omega
  have e2 : (x * 256 + a) / 256 % 256 % 2 ^ 8 = x := by omega
  rw [e1, e2]

theorem display_GetMenuEvent_probe_id (K : MenuEnv) (params : Nat) (event : keypad_event_t)
    (result : Nat) (hp : result ≠ K.action U8X8_MSG_GPIO_MENU_PROBE_BTN)
    (hs : result ≠ K.action U8X8_MSG_GPIO_MENU_STICK_BTN) :
    display_GetMenuEvent_probe K params event result = result := by
  unfold display_GetMenuEvent_probe
  rw [if_neg (fun h => hp h.2), if_neg (fun h => hs h.2)]

theorem display_GetMenuEvent_usb_id (K : MenuEnv) (params : Nat) (event : keypad_event_t)
    (result : Nat)
    (h : ¬ (result = 0 ∧ event.key = K.key KEYPAD_USB_KEYBOARD ∧ event.pressed = true)) :
    display_GetMenuEvent_usb K params event result = result := by
  unfold display_GetMenuEvent_usb
  rw [if_neg h]

theorem encoded_ne_action (K : MenuEnv) (hK : K.WellFormed) (x : Nat) (a b : MenuAction)
    (hab : a ≠ b) : x * 256 + K.action a ≠ K.action b := by
  have ha := hK.action_lt a
  have hb := hK.action_lt b
  have hne : K.action a ≠ K.action b := fun h => hab (hK.action_injective h)
  omega

theorem display_GetMenuEvent_encoder_cw (K : MenuEnv) (hK : K.WellFormed) (params c : Nat)
    (hc : c < 256) :
    display_GetMenuEvent K params K.HAL_OK ⟨K.key KEYPAD_ENCODER_CW, true, c⟩
      = c * 256 + K.action U8X8_MSG_GPIO_MENU_VALUE_INC := by
  have hlt := hK.action_lt U8X8_MSG_GPIO_MENU_VALUE_INC
  have hpos := hK.action_pos U8X8_MSG_GPIO_MENU_VALUE_INC
  have hpress : display_GetMenuEvent_pressed K ⟨K.key KEYPAD_ENCODER_CW, true, c⟩
      = c * 256 + K.action U8X8_MSG_GPIO_MENU_VALUE_INC := by
    simp [display_GetMenuEvent_pressed, hK.key_injective.eq_iff,
      menu_event_encode_eq c (K.action U8X8_MSG_GPIO_MENU_VALUE_INC) hc (by omega)]
  simp only [display_GetMenuEvent, if_true, hpress]
  rw [display_GetMenuEvent_probe_id K params _ _
      (encoded_ne_action K hK c _ _ (by decide)) (encoded_ne_action K hK c _ _ (by decide)),
    display_GetMenuEvent_usb_id]
  intro h
  omega

theorem display_GetMenuEvent_encoder_ccw (K : MenuEnv) (hK : K.WellFormed) (params c : Nat)
    (hc : c < 256) :
    display_GetMenuEvent K params K.HAL_OK ⟨K.key KEYPAD_ENCODER_CCW, true, c⟩
      = c * 256 + K.action U8X8_MSG_GPIO_MENU_VALUE_DEC := by
  have hlt := hK.action_lt U8X8_MSG_GPIO_MENU_VALUE_DEC
  have hpos := hK.action_pos U8X8_MSG_GPIO_MENU_VALUE_DEC
  have hpress : display_GetMenuEvent_pressed K ⟨K.key KEYPAD_ENCODER_CCW, true, c⟩
      = c * 256 + K.action U8X8_MSG_GPIO_MENU_VALUE_DEC := by
    simp [display_GetMenuEvent_pressed, hK.key_injective.eq_iff,
      menu_event_encode_eq c (K.action U8X8_MSG_GPIO_MENU_VALUE_DEC) hc (by omega)]
  simp only [display_GetMenuEvent, if_true, hpress]
  rw [display_GetMenuEvent_probe_id K params _ _
      (encoded_ne_action K hK c _ _ (by decide)) (encoded_ne_action K hK c _ _ (by decide)),
    display_GetMenuEvent_usb_id]
  intro h
  omega

theorem editor_steps_value_inc (K : MenuEnv) (hK : K.WellFormed) (c : Nat) (hc : c < 256)
    (event_callback : Bool) :
    display_UserInterfaceInputValue_step K (c * 256 + K.action U8X8_MSG_GPIO_MENU_VALUE_INC)
      = EditorStep.adjust (to_int8 c) ∧
    display_UserInterfaceInputValueU16_step K
        (c * 256 + K.action U8X8_MSG_GPIO_MENU_VALUE_INC)
      = EditorStep.adjust (to_int8 c) ∧
    display_UserInterfaceInputValueF16_step K event_callback
        (c * 256 + K.action U8X8_MSG_GPIO_MENU_VALUE_INC)
      = EditorStep.adjust (to_int8 c) := by
  have hlt := hK.action_lt U8X8_MSG_GPIO_MENU_VALUE_INC
  have hdec := input_value_decode_encoded K c _ hc hlt
  have hmax : ¬ (c * 256 + K.action U8X8_MSG_GPIO_MENU_VALUE_INC = UINT16_MAX) := by
    unfold UINT16_MAX; omega
  have hdec' := hdec
  simp only [input_value_decode, if_neg hmax, Prod.mk.injEq] at hdec'
  refine ⟨?_, ?_, ?_⟩
  · simp [display_UserInterfaceInputValue_step, hdec, hK.action_injective.eq_iff]
  · simp [display_UserInterfaceInputValueU16_step, hdec, hK.action_injective.eq_iff]
  · cases event_callback <;>
      simp [display_UserInterfaceInputValueF16_step, hdec, hdec'.1, hdec'.2, hmax,
        hK.action_injective.eq_iff]

theorem editor_steps_value_dec (K : MenuEnv) (hK : K.WellFormed) (c : Nat) (hc : c < 256)
    (event_callback : Bool) :
    display_UserInterfaceInputValue_step K (c * 256 + K.action U8X8_MSG_GPIO_MENU_VALUE_DEC)
      = EditorStep.adjust (to_int8 (-1 * (c : Int))) ∧
    display_UserInterfaceInputValueU16_step K
        (c * 256 + K.action U8X8_MSG_GPIO_MENU_VALUE_DEC)
      = EditorStep.adjust (to_int8 (-1 * (c : Int))) ∧
    display_UserInterfaceInputValueF16_step K event_callback
        (c * 256 + K.action U8X8_MSG_GPIO_MENU_VALUE_DEC)
      = EditorStep.adjust (to_int8 (-1 * (c : Int))) := by
  have hlt := hK.action_lt U8X8_MSG_GPIO_MENU_VALUE_DEC
  have hdec := input_value_decode_encoded K c _ hc hlt
  have hmax : ¬ (c * 256 + K.action U8X8_MSG_GPIO_MENU_VALUE_DEC = UINT16_MAX) := by
    unfold UINT16_MAX; omega
  have hdec' := hdec
  simp only [input_value_decode, if_neg hmax, Prod.mk.injEq] at hdec'
  refine ⟨?_, ?_, ?_⟩
  · simp [display_UserInterfaceInputValue_step, hdec, hK.action_injective.eq_iff]
  · simp [display_UserInterfaceInputValueU16_step, hdec, hK.action_injective.eq_iff]
  · cases event_callback <;>
      simp [display_UserInterfaceInputValueF16_step, hdec, hdec'.1, hdec'.2, hmax,
        hK.action_injective.eq_iff]

theorem to_int8_count (c : Nat) (hc : c < 256) :
    (to_int8 c = (c : Int) ↔ c ≤ 127) ∧ (to_int8 (-1 * (c : Int)) = -(c : Int) ↔ c ≤ 128) := by
  unfold to_int8
  omega

theorem editor_delta_of_small_count (K : MenuEnv) (hK : K.WellFormed) (c : Nat)
    (event_callback : Bool) :
    (c ≤ 127 →
      display_UserInterfaceInputValue_step K (c * 256 + K.action U8X8_MSG_GPIO_MENU_VALUE_INC)
        = EditorStep.adjust (c : Int) ∧
      display_UserInterfaceInputValueU16_step K
          (c * 256 + K.action U8X8_MSG_GPIO_MENU_VALUE_INC)
        = EditorStep.adjust (c : Int) ∧
      display_UserInterfaceInputValueF16_step K event_callback
          (c * 256 + K.action U8X8_MSG_GPIO_MENU_VALUE_INC)
        = EditorStep.adjust (c : Int)) ∧
    (c ≤ 128 →
      display_UserInterfaceInputValue_step K (c * 256 + K.action U8X8_MSG_GPIO_MENU_VALUE_DEC)
        = EditorStep.adjust (-(c : Int)) ∧
      display_UserInterfaceInputValueU16_step K
          (c * 256 + K.action U8X8_MSG_GPIO_MENU_VALUE_DEC)
        = EditorStep.adjust (-(c : Int)) ∧
      display_UserInterfaceInputValueF16_step K event_callback
          (c * 256 + K.action U8X8_MSG_GPIO_MENU_VALUE_DEC)
        = EditorStep.adjust (-(c : Int))) := by
  constructor
  · intro hc
    have h := editor_steps_value_inc K hK c (by omega) event_callback
    rw [((to_int8_count c (by omega)).1).2 hc] at h
    exact h
  · intro hc
    have h := editor_steps_value_dec K hK c (by omega) event_callback
    rw [((to_int8_count c (by omega)).2).2 hc] at h
    exact h

theorem to_uint16_action_mod (K : MenuEnv) (hK : K.WellFormed) (a : MenuAction) :
    to_uint16 (K.action a) % 256 = K.action a := by
  have h := hK.action_lt a
  unfold to_uint16
  omega

theorem menu_event_encode_action_mod (K : MenuEnv) (hK : K.WellFormed) (x : Nat)
    (a : MenuAction) : menu_event_encode x (K.action a) % 256 = K.action a :=
  menu_event_encode_mod x (K.action a) (by have h := hK.action_lt a; omega)

theorem display_GetMenuEvent_pressed_low_byte (K : MenuEnv) (hK : K.WellFormed)
    (params : Nat) (event : keypad_event_t) :
    K.ActionInLowByte params (display_GetMenuEvent_pressed K event) := by
  unfold display_GetMenuEvent_pressed
  dsimp only
  split_ifs <;>
    first
    | exact Or.inl rfl
    | exact Or.inr ⟨_, to_uint16_action_mod K hK _, fun h => by cases h⟩
    | exact Or.inr ⟨_, menu_event_encode_action_mod K hK _ _, fun h => by cases h⟩

theorem display_GetMenuEvent_released_low_byte (K : MenuEnv) (hK : K.WellFormed)
    (params : Nat) (event : keypad_event_t) :
    K.ActionInLowByte params (display_GetMenuEvent_released K params event) := by
  unfold display_GetMenuEvent_released
  split_ifs with h1 h2
  · refine Or.inr ⟨_, menu_event_encode_action_mod K hK _ _, fun _ => ?_⟩
    unfold MenuEnv.accepts
    tauto
  · exact Or.inr ⟨_, to_uint16_action_mod K hK _, fun h => by cases h⟩
  · exact Or.inl rfl

theorem display_GetMenuEvent_probe_low_byte (K : MenuEnv) (hK : K.WellFormed)
    (params : Nat) (event : keypad_event_t) (result : Nat)
    (hr : K.ActionInLowByte params result) :
    K.ActionInLowByte params (display_GetMenuEvent_probe K params event result) := by
  unfold display_GetMenuEvent_probe
  split_ifs with h1 h2
  · refine Or.inr ⟨_, menu_event_encode_action_mod K hK _ _, fun _ => ?_⟩
    unfold MenuEnv.accepts
    tauto
  · refine Or.inr ⟨_, menu_event_encode_action_mod K hK _ _, fun _ => ?_⟩
    unfold MenuEnv.accepts
    tauto
  · exact hr

theorem display_GetMenuEvent_usb_low_byte (K : MenuEnv) (hK : K.WellFormed)
    (params : Nat) (event : keypad_event_t) (result : Nat)
    (hr : K.ActionInLowByte params result) :
    K.ActionInLowByte params (display_GetMenuEvent_usb K params event result) := by
  unfold display_GetMenuEvent_usb
  dsimp only
  split
  next h0 =>
    split
    next h1 =>
      exact Or.inr ⟨U8X8_MSG_GPIO_MENU_SELECT, menu_event_encode_action_mod K hK _ _,
        fun _ => Or.inl h1.1⟩
    next h1 =>
      split
      next h2 =>
        exact Or.inr ⟨U8X8_MSG_GPIO_MENU_SELECT, menu_event_encode_action_mod K hK _ _,
          fun _ => Or.inr (Or.inl h2.1)⟩
      next h2 =>
        split
        next h3 =>
          exact Or.inr ⟨U8X8_MSG_GPIO_MENU_SELECT, menu_event_encode_action_mod K hK _ _,
            fun _ => Or.inr (Or.inr (Or.inl h3.1))⟩
        next h3 =>
          split
          next h4 =>
            exact Or.inr ⟨U8X8_MSG_GPIO_MENU_SELECT, menu_event_encode_action_mod K hK _ _,
              fun _ => Or.inr (Or.inr (Or.inr (Or.inl h4.1)))⟩
          next h4 =>
            split
            next h5 =>
              exact Or.inr ⟨U8X8_MSG_GPIO_MENU_HOME, to_uint16_action_mod K hK _,
                fun h => by cases h⟩
            next h5 =>
              split
              next h6 =>
                split
                next h7 =>
                  exact Or.inr ⟨U8X8_MSG_GPIO_MENU_INPUT_ASCII,
                    menu_event_encode_action_mod K hK _ _, fun h => by cases h⟩
                next h7 =>
                  split
                  next h8 =>
                    exact Or.inr ⟨U8X8_MSG_GPIO_MENU_INPUT_ASCII,
                      menu_event_encode_action_mod K hK _ _, fun h => by cases h⟩
                  next h8 =>
                    split
                    next h9 =>
                      exact Or.inr ⟨U8X8_MSG_GPIO_MENU_INPUT_ASCII,
                        menu_event_encode_action_mod K hK _ _, fun h => by cases h⟩
                    next h9 => exact hr
              next h6 => exact hr
  next h0 => exact hr

theorem display_GetMenuEvent_low_byte (K : MenuEnv) (hK : K.WellFormed)
    (params : Nat) (event : keypad_event_t) :
    K.ActionInLowByte params (display_GetMenuEvent K params K.HAL_OK event) := by
  simp only [display_GetMenuEvent, if_true]
  apply display_GetMenuEvent_usb_low_byte K hK
  apply display_GetMenuEvent_probe_low_byte K hK
  split
  · exact display_GetMenuEvent_pressed_low_byte K hK params event
  · exact display_GetMenuEvent_released_low_byte K hK params event

theorem ActionInLowByte_ne_max (K : MenuEnv) (hK : K.WellFormed) (params result : Nat)
    (hr : K.ActionInLowByte params result) : result ≠ UINT16_MAX := by
  unfold UINT16_MAX
  rcases hr with h0 | ⟨a, ha, _⟩
  · omega
  · have hlt := hK.action_lt a
    omega

theorem display_GetMenuEvent_of_first_stage (K : MenuEnv) (params : Nat)
    (event : keypad_event_t) (r : Nat)
    (h1 : (if event.pressed = true then display_GetMenuEvent_pressed K event
      else display_GetMenuEvent_released K params event) = r)
    (hp : r ≠ K.action U8X8_MSG_GPIO_MENU_PROBE_BTN)
    (hs : r ≠ K.action U8X8_MSG_GPIO_MENU_STICK_BTN)
    (hu : ¬ (r = 0 ∧ event.key = K.key KEYPAD_USB_KEYBOARD ∧ event.pressed = true)) :
    display_GetMenuEvent K params K.HAL_OK event = r := by
  simp only [display_GetMenuEvent, if_true, h1]
  rw [display_GetMenuEvent_probe_id K params event r hp hs,
    display_GetMenuEvent_usb_id K params event r hu]

theorem display_GetMenuEvent_press_no_action (K : MenuEnv) (hK : K.WellFormed)
    (params count : Nat) (k : keypad_key_t)
    (hk : k = KEYPAD_MENU ∨ k = KEYPAD_ADD_ADJUSTMENT ∨ k = KEYPAD_TEST_STRIP
      ∨ k = KEYPAD_ENCODER ∨ k = KEYPAD_CANCEL) :
    display_GetMenuEvent K params K.HAL_OK ⟨K.key k, true, count⟩ = 0 := by
  have hp := hK.action_pos U8X8_MSG_GPIO_MENU_PROBE_BTN
  have hs := hK.action_pos U8X8_MSG_GPIO_MENU_STICK_BTN
  apply display_GetMenuEvent_of_first_stage K params _ 0 _ (by omega) (by omega)
  · rintro ⟨_, hkey, _⟩
    have hk' := hK.key_injective hkey
    rcases hk with rfl | rfl | rfl | rfl | rfl <;> cases hk'
  · rcases hk with rfl | rfl | rfl | rfl | rfl <;>
      simp [display_GetMenuEvent_pressed, hK.key_injective.eq_iff]

theorem display_GetMenuEvent_release_cancel (K : MenuEnv) (hK : K.WellFormed)
    (params count : Nat) :
    display_GetMenuEvent K params K.HAL_OK ⟨K.key KEYPAD_CANCEL, false, count⟩
      = K.action U8X8_MSG_GPIO_MENU_HOME := by
  have hpos := hK.action_pos U8X8_MSG_GPIO_MENU_HOME
  apply display_GetMenuEvent_of_first_stage K params _ _ _
    (fun h => absurd (hK.action_injective h) (by decide))
    (fun h => absurd (hK.action_injective h) (by decide))
  · rintro ⟨h0, _, _⟩
    omega
  · simp [display_GetMenuEvent_released, hK.key_injective.eq_iff, to_uint16_action K hK]

theorem display_GetMenuEvent_release_accept (K : MenuEnv) (hK : K.WellFormed)
    (params count : Nat) (k : keypad_key_t) (flag : Nat)
    (hk : (k = KEYPAD_MENU ∧ flag = K.DISPLAY_MENU_ACCEPT_MENU)
      ∨ (k = KEYPAD_ADD_ADJUSTMENT ∧ flag = K.DISPLAY_MENU_ACCEPT_ADD_ADJUSTMENT)
      ∨ (k = KEYPAD_TEST_STRIP ∧ flag = K.DISPLAY_MENU_ACCEPT_TEST_STRIP)
      ∨ (k = KEYPAD_ENCODER ∧ flag = K.DISPLAY_MENU_ACCEPT_ENCODER)) :
    display_GetMenuEvent K params K.HAL_OK ⟨K.key k, false, count⟩
      = if params &&& flag ≠ 0 then K.key k * 256 + K.action U8X8_MSG_GPIO_MENU_SELECT
        else 0 := by
  have hpos := hK.action_pos U8X8_MSG_GPIO_MENU_SELECT
  have hlt := hK.action_lt U8X8_MSG_GPIO_MENU_SELECT
  have hpp := hK.action_pos U8X8_MSG_GPIO_MENU_PROBE_BTN
  have hsp := hK.action_pos U8X8_MSG_GPIO_MENU_STICK_BTN
  have henc := menu_event_encode_eq (K.key k) (K.action U8X8_MSG_GPIO_MENU_SELECT)
    (hK.key_lt k) (by omega)
  have hnp := encoded_ne_action K hK (K.key k) U8X8_MSG_GPIO_MENU_SELECT
    U8X8_MSG_GPIO_MENU_PROBE_BTN (by decide)
  have hns := encoded_ne_action K hK (K.key k) U8X8_MSG_GPIO_MENU_SELECT
    U8X8_MSG_GPIO_MENU_STICK_BTN (by decide)
  apply display_GetMenuEvent_of_first_stage K params _ _ _
  · split <;> omega
  · split <;> omega
  · rintro ⟨_, _, hpr⟩
    cases hpr
  · by_cases hf : params &&& flag = 0 <;>
      rcases hk with ⟨rfl, rfl⟩ | ⟨rfl, rfl⟩ | ⟨rfl, rfl⟩ | ⟨rfl, rfl⟩ <;>
      simp [display_GetMenuEvent_released, hK.key_injective.eq_iff, henc, hf]

/-- Claim C13: evaluation at the repeat count 200. A clockwise encoder press with count 200
is reported as the result with high byte 200 and low byte `VALUE_INC`, and each value
editor decodes it and passes the delta `-56` (200 narrowed to `int8_t`), not `+200`, to
the rollover adjust; a counter-clockwise press with count 200 is reported with low byte
`VALUE_DEC` and the editors pass `+56`, not `-200`. -/
theorem encoder_count_200_delta (K : MenuEnv) (hK : K.WellFormed) (params : Nat)
    (event_callback : Bool) :
    (display_GetMenuEvent K params K.HAL_OK ⟨K.key KEYPAD_ENCODER_CW, true, 200⟩
        = 200 * 256 + K.action U8X8_MSG_GPIO_MENU_VALUE_INC ∧
      display_UserInterfaceInputValue_step K
          (200 * 256 + K.action U8X8_MSG_GPIO_MENU_VALUE_INC) = EditorStep.adjust (-56) ∧
      display_UserInterfaceInputValueU16_step K
          (200 * 256 + K.action U8X8_MSG_GPIO_MENU_VALUE_INC) = EditorStep.adjust (-56) ∧
      display_UserInterfaceInputValueF16_step K event_callback
          (200 * 256 + K.action U8X8_MSG_GPIO_MENU_VALUE_INC) = EditorStep.adjust (-56)) ∧
    (display_GetMenuEvent K params K.HAL_OK ⟨K.key KEYPAD_ENCODER_CCW, true, 200⟩
        = 200 * 256 + K.action U8X8_MSG_GPIO_MENU_VALUE_DEC ∧
      display_UserInterfaceInputValue_step K
          (200 * 256 + K.action U8X8_MSG_GPIO_MENU_VALUE_DEC) = EditorStep.adjust 56 ∧
      display_UserInterfaceInputValueU16_step K
          (200 * 256 + K.action U8X8_MSG_GPIO_MENU_VALUE_DEC) = EditorStep.adjust 56 ∧
      display_UserInterfaceInputValueF16_step K event_callback
          (200 * 256 + K.action U8X8_MSG_GPIO_MENU_VALUE_DEC) = EditorStep.adjust 56) := by
  have hinc : to_int8 ((200 : Nat) : Int) = -56 := by decide
  have hdec : to_int8 (-1 * ((200 : Nat) : Int)) = 56 := by decide
  have h1 := editor_steps_value_inc K hK 200 (by decide) event_callback
  have h2 := editor_steps_value_dec K hK 200 (by decide) event_callback
  rw [hinc] at h1
  rw [hdec] at h2
  exact ⟨⟨display_GetMenuEvent_encoder_cw K hK params 200 (by decide), h1⟩,
    ⟨display_GetMenuEvent_encoder_ccw K hK params 200 (by decide), h2⟩⟩

theorem encoder_count_200_delta_witness :
    display_GetMenuEvent sample_env sample_env.DISPLAY_MENU_ACCEPT_MENU sample_env.HAL_OK
        ⟨sample_env.key KEYPAD_ENCODER_CW, true, 200⟩
      = 200 * 256 + sample_env.action U8X8_MSG_GPIO_MENU_VALUE_INC ∧
    display_UserInterfaceInputValue_step sample_env
        (200 * 256 + sample_env.action U8X8_MSG_GPIO_MENU_VALUE_INC)
      = EditorStep.adjust (-56) :=
  ⟨(encoder_count_200_delta sample_env sample_env_wellFormed
      sample_env.DISPLAY_MENU_ACCEPT_MENU false).1.1,
   (encoder_count_200_delta sample_env sample_env_wellFormed
      sample_env.DISPLAY_MENU_ACCEPT_MENU false).1.2.1⟩

/-- Claim C16: for every `params`, a press of the physical MENU, ADD_ADJUSTMENT,
TEST_STRIP, ENCODER or CANCEL key yields 0; a release of CANCEL yields `HOME`; and a release
of MENU, ADD_ADJUSTMENT, TEST_STRIP or ENCODER yields `SELECT` in the low byte with the key
code in the high byte if the matching `DISPLAY_MENU_ACCEPT_*` flag is set in `params`,
and 0 if it is not. -/
theorem display_GetMenuEvent_leave_on_release (K : MenuEnv) (hK : K.WellFormed)
    (params count : Nat) :
    (∀ k, (k = KEYPAD_MENU ∨ k = KEYPAD_ADD_ADJUSTMENT ∨ k = KEYPAD_TEST_STRIP
        ∨ k = KEYPAD_ENCODER ∨ k = KEYPAD_CANCEL) →
      display_GetMenuEvent K params K.HAL_OK ⟨K.key k, true, count⟩ = 0) ∧
    display_GetMenuEvent K params K.HAL_OK ⟨K.key KEYPAD_CANCEL, false, count⟩
      = K.action U8X8_MSG_GPIO_MENU_HOME ∧
    display_GetMenuEvent K params K.HAL_OK ⟨K.key KEYPAD_MENU, false, count⟩
      = (if params &&& K.DISPLAY_MENU_ACCEPT_MENU ≠ 0 then
          K.key KEYPAD_MENU * 256 + K.action U8X8_MSG_GPIO_MENU_SELECT else 0) ∧
    display_GetMenuEvent K params K.HAL_OK ⟨K.key KEYPAD_ADD_ADJUSTMENT, false, count⟩
      = (if params &&& K.DISPLAY_MENU_ACCEPT_ADD_ADJUSTMENT ≠ 0 then
          K.key KEYPAD_ADD_ADJUSTMENT * 256 + K.action U8X8_MSG_GPIO_MENU_SELECT else 0) ∧
    display_GetMenuEvent K params K.HAL_OK ⟨K.key KEYPAD_TEST_STRIP, false, count⟩
      = (if params &&& K.DISPLAY_MENU_ACCEPT_TEST_STRIP ≠ 0 then
          K.key KEYPAD_TEST_STRIP * 256 + K.action U8X8_MSG_GPIO_MENU_SELECT else 0) ∧
    display_GetMenuEvent K params K.HAL_OK ⟨K.key KEYPAD_ENCODER, false, count⟩
      = (if params &&& K.DISPLAY_MENU_ACCEPT_ENCODER ≠ 0 then
          K.key KEYPAD_ENCODER * 256 + K.action U8X8_MSG_GPIO_MENU_SELECT else 0) :=
  ⟨fun k hk => display_GetMenuEvent_press_no_action K hK params count k hk,
   display_GetMenuEvent_release_cancel K hK params count,
   display_GetMenuEvent_release_accept K hK params count _ _ (Or.inl ⟨rfl, rfl⟩),
   display_GetMenuEvent_release_accept K hK params count _ _ (Or.inr (Or.inl ⟨rfl, rfl⟩)),
   display_GetMenuEvent_release_accept K hK params count _ _
     (Or.inr (Or.inr (Or.inl ⟨rfl, rfl⟩))),
   display_GetMenuEvent_release_accept K hK params count _ _
     (Or.inr (Or.inr (Or.inr ⟨rfl, rfl⟩)))⟩

theorem display_GetMenuEvent_leave_on_release_witness :
    display_GetMenuEvent sample_env 0x0B sample_env.HAL_OK
        ⟨sample_env.key KEYPAD_TEST_STRIP, true, 0⟩ = 0 ∧
    display_GetMenuEvent sample_env 0x0B sample_env.HAL_OK
        ⟨sample_env.key KEYPAD_CANCEL, false, 0⟩ = 83 ∧
    display_GetMenuEvent sample_env 0x0B sample_env.HAL_OK
        ⟨sample_env.key KEYPAD_MENU, false, 0⟩ = 9 * 256 + 80 ∧
    display_GetMenuEvent sample_env 0x0B sample_env.HAL_OK
        ⟨sample_env.key KEYPAD_TEST_STRIP, false, 0⟩ = 0 := by
  have h := display_GetMenuEvent_leave_on_release sample_env sample_env_wellFormed 0x0B 0
  refine ⟨h.1 KEYPAD_TEST_STRIP (by decide), h.2.1, ?_, ?_⟩
  · rw [h.2.2.1]; decide
  · rw [h.2.2.2.2.1]; decide

theorem display_GetMenuEvent_timed_out (K : MenuEnv) (hK : K.WellFormed) (params ret : Nat)
    (event : keypad_event_t) (ht : ret = K.HAL_TIMEOUT) :
    display_GetMenuEvent K params ret event
      = if params &&& K.DISPLAY_MENU_INPUT_POLL ≠ 0 then 0 else UINT16_MAX := by
  have hr : ¬ ret = K.HAL_OK := fun h => hK.hal_distinct (h.symm.trans ht)
  unfold display_GetMenuEvent
  rw [if_neg hr, if_pos ht]

theorem display_GetMenuEvent_failed (K : MenuEnv) (params ret : Nat)
    (event : keypad_event_t) (hr : ret ≠ K.HAL_OK) (ht : ret ≠ K.HAL_TIMEOUT) :
    display_GetMenuEvent K params ret event = 0 := by
  unfold display_GetMenuEvent
  rw [if_neg hr, if_neg ht]

/-- Claim C17: `display_GetMenuEvent` returns `UINT16_MAX` exactly when the keypad wait
timed out and `DISPLAY_MENU_INPUT_POLL` is not set in `params`; a timeout in poll mode
returns 0, a wait that ended with any status other than `HAL_OK` and `HAL_TIMEOUT` returns
0, and no delivered key event, whatever its key, count and character and whatever
`params` is, yields `UINT16_MAX`. -/
theorem display_GetMenuEvent_reserved_value (K : MenuEnv) (hK : K.WellFormed)
    (params ret : Nat) (event : keypad_event_t) :
    (display_GetMenuEvent K params ret event = UINT16_MAX ↔
      (ret = K.HAL_TIMEOUT ∧ params &&& K.DISPLAY_MENU_INPUT_POLL = 0)) ∧
    (ret = K.HAL_TIMEOUT → params &&& K.DISPLAY_MENU_INPUT_POLL ≠ 0 →
      display_GetMenuEvent K params ret event = 0) ∧
    (ret ≠ K.HAL_OK → ret ≠ K.HAL_TIMEOUT → display_GetMenuEvent K params ret event = 0) ∧
    (ret = K.HAL_OK → display_GetMenuEvent K params ret event ≠ UINT16_MAX) := by
  have hok : ret = K.HAL_OK → display_GetMenuEvent K params ret event ≠ UINT16_MAX := by
    rintro rfl
    exact ActionInLowByte_ne_max K hK params _ (display_GetMenuEvent_low_byte K hK params event)
  refine ⟨?_, ?_, ?_, hok⟩
  · by_cases h1 : ret = K.HAL_OK
    · constructor
      · intro h
        exact absurd h (hok h1)
      · rintro ⟨h2, _⟩
        exact absurd (h1.symm.trans h2) hK.hal_distinct
    · by_cases h2 : ret = K.HAL_TIMEOUT
      · rw [display_GetMenuEvent_timed_out K hK params ret event h2]
        by_cases h3 : params &&& K.DISPLAY_MENU_INPUT_POLL = 0
        · simp [h2, h3]
        · simp [h3, UINT16_MAX]
      · rw [display_GetMenuEvent_failed K params ret event h1 h2]
        simp [h2, UINT16_MAX]
  · intro h2 h3
    rw [display_GetMenuEvent_timed_out K hK params ret event h2, if_pos h3]
  · intro h1 h2
    exact display_GetMenuEvent_failed K params ret event h1 h2

theorem display_GetMenuEvent_reserved_value_witness :
    display_GetMenuEvent sample_env sample_env.DISPLAY_MENU_INPUT_POLL sample_env.HAL_TIMEOUT
        ⟨0, false, 0⟩ = 0 ∧
    display_GetMenuEvent sample_env 0 1 ⟨0, false, 0⟩ = 0 ∧
    display_GetMenuEvent sample_env 0 sample_env.HAL_OK
        ⟨sample_env.key KEYPAD_ENCODER_CW, true, 255⟩ ≠ UINT16_MAX ∧
    display_GetMenuEvent sample_env 0 sample_env.HAL_TIMEOUT ⟨0, false, 0⟩ = UINT16_MAX :=
  ⟨(display_GetMenuEvent_reserved_value sample_env sample_env_wellFormed
      sample_env.DISPLAY_MENU_INPUT_POLL sample_env.HAL_TIMEOUT ⟨0, false, 0⟩).2.1
      rfl (by decide),
   (display_GetMenuEvent_reserved_value sample_env sample_env_wellFormed 0 1
      ⟨0, false, 0⟩).2.2.1 (by decide) (by decide),
   (display_GetMenuEvent_reserved_value sample_env sample_env_wellFormed 0 sample_env.HAL_OK
      ⟨sample_env.key KEYPAD_ENCODER_CW, true, 255⟩).2.2.2 rfl,
   (display_GetMenuEvent_reserved_value sample_env sample_env_wellFormed 0
      sample_env.HAL_TIMEOUT ⟨0, false, 0⟩).1.2 ⟨rfl, by decide⟩⟩

/-- Claim C18: if none of the six accept flags is set in `params`, then for every event,
pressed or released, of a keypad key or of the USB keyboard (and for a wait that delivered
no event as well), the low byte of the result of `display_GetMenuEvent`, which is what the
callers decode as the action, is not `SELECT`. -/
theorem display_GetMenuEvent_select_needs_accept (K : MenuEnv) (hK : K.WellFormed)
    (params ret : Nat) (event : keypad_event_t)
    (h1 : params &&& K.DISPLAY_MENU_ACCEPT_MENU = 0)
    (h2 : params &&& K.DISPLAY_MENU_ACCEPT_ADD_ADJUSTMENT = 0)
    (h3 : params &&& K.DISPLAY_MENU_ACCEPT_TEST_STRIP = 0)
    (h4 : params &&& K.DISPLAY_MENU_ACCEPT_ENCODER = 0)
    (h5 : params &&& K.DISPLAY_MENU_ACCEPT_PROBE = 0)
    (h6 : params &&& K.DISPLAY_MENU_ACCEPT_STICK = 0) :
    display_GetMenuEvent K params ret event % 256 ≠ K.action U8X8_MSG_GPIO_MENU_SELECT ∧
    to_uint8 (display_GetMenuEvent K params ret event &&& 0x00FF)
      ≠ K.action U8X8_MSG_GPIO_MENU_SELECT := by
  have hpos := hK.action_pos U8X8_MSG_GPIO_MENU_SELECT
  have hlt := hK.action_lt U8X8_MSG_GPIO_MENU_SELECT
  have hno : ¬ K.accepts params := by
    unfold MenuEnv.accepts
    simp [h1, h2, h3, h4, h5, h6]
  have hmod : display_GetMenuEvent K params ret event % 256
      ≠ K.action U8X8_MSG_GPIO_MENU_SELECT := by
    by_cases hr : ret = K.HAL_OK
    · subst hr
      rcases display_GetMenuEvent_low_byte K hK params event with h0 | ⟨a, ha, hsel⟩
      · rw [h0]; omega
      · rw [ha]
        intro heq
        exact hno (hsel (hK.action_injective heq))
    · by_cases ht : ret = K.HAL_TIMEOUT
      · rw [display_GetMenuEvent_timed_out K hK params ret event ht]
        unfold UINT16_MAX
        split <;> omega
      · rw [display_GetMenuEvent_failed K params ret event hr ht]
        omega
  refine ⟨hmod, ?_⟩
  have hlow : display_GetMenuEvent K params ret event &&& 0x00FF
      = display_GetMenuEvent K params ret event % 2 ^ 8 :=
    Nat.and_pow_two_sub_one_eq_mod _ 8
  unfold to_uint8
  rw [hlow]
  omega

theorem display_GetMenuEvent_select_needs_accept_witness :
    display_GetMenuEvent sample_env sample_env.DISPLAY_MENU_INPUT_ASCII sample_env.HAL_OK
        ⟨sample_env.key KEYPAD_MENU, false, 0⟩ % 256
      ≠ sample_env.action U8X8_MSG_GPIO_MENU_SELECT :=
  (display_GetMenuEvent_select_needs_accept sample_env sample_env_wellFormed
    sample_env.DISPLAY_MENU_INPUT_ASCII sample_env.HAL_OK
    ⟨sample_env.key KEYPAD_MENU, false, 0⟩
    (by decide) (by decide) (by decide) (by decide) (by decide) (by decide)).1


end PrintAnalyzer
